import Mathlib

/-!
Verification development for the FriendFlow poll-lifecycle / PlanBot core.

The definitions below are a shallow embedding of the repository's source:

* `createPoll`, `activatePoll`, `getActivePoll`, `getGroupPolls`,
  `getPollVotes`, `castVote` embed the poll helpers
  (src/src/pages/notifications.tsx, pollHelpers section).
* `sendSystemMessage`, `sendPersonalNotification`, `parseArgs`,
  `parseDateTime`, `suggestOutings`, `suggestMovies`, `selectItem`,
  `attachWhen`, `rsvpSummary`, `lockDecision`, `help`,
  `handlePlanbotCommand` embed src/src/lib/planbot.ts.
* `applyMessageSub`, `applyPollSub`, `applyVoteSub`, `applyReactionSub`
  embed the realtime subscription handlers of src/src/pages/group-chat.tsx.

Modelling conventions:

* The Appwrite persistence gateway is modelled by an explicit `Store` of
  record lists.  `listDocuments` with equality filters is `List.filter`;
  documents are listed in insertion (creation) order, which is the
  store's default order when no order query is given (the source passes
  `Query.orderDesc("$createdAt")` explicitly whenever it wants
  newest-first, e.g. in `getGroupPolls`, so the default is creation
  order).  `ID.unique()` is modelled by a monotone counter `nextId`, so
  a larger id means a later creation time.
* Every gateway call can fail.  Failure injection is a `fuel : List Bool`
  oracle carried in the `World`: each gateway call consumes one entry;
  `false` makes that call fail with a persistence error; an exhausted
  oracle means all remaining calls succeed.  JavaScript `try`/`catch` is
  the `attempt` combinator; a JS `throw` is `dbThrow`.
* The source stores `metadata` JSON-encoded and parses it back on read;
  since encode/decode are mutually inverse the model keeps the parsed
  structure (`Metadata`) throughout.  Numeric payload fields (ratings,
  coordinates) are carried as `Rat`; no claim computes on them.
* JavaScript string primitives (`trim`, `split(/\s+/)`, `toLowerCase`,
  `includes`, the date/time regexes) are re-implemented over character
  lists (`strTrim`, `splitWords`, `lowerStr`, `strIncludes`,
  `isDateTok`, `isTimeTok`) with ASCII semantics, which is what the
  command strings use.
* The external place/movie lookup capability (network `fetch`) is an
  injected parameter: `searchPlaces` in the source catches every error
  and returns a list, so it is a total function; `searchMoviesByGenres`
  can throw, so it is `Except`-valued.
-/

deriving instance DecidableEq for Except

namespace FriendFlow

/-! ## JS string primitives over character lists -/

/-- ASCII whitespace, as used by the command strings. -/
def isWS (c : Char) : Bool := c == ' ' || c == '\t' || c == '\n' || c == '\r'

/-- JS `String.prototype.trim` (ASCII whitespace). -/
def strTrim (s : String) : String :=
  String.mk (((s.data.dropWhile isWS).reverse.dropWhile isWS).reverse)

/-- Accumulator-style splitting on whitespace runs. -/
def wordsAux : List Char → List Char → List String
  | [], acc => if acc.isEmpty then [] else [String.mk acc.reverse]
  | c :: cs, acc =>
    if isWS c then
      if acc.isEmpty then wordsAux cs [] else String.mk acc.reverse :: wordsAux cs []
    else wordsAux cs (c :: acc)

/-- JS `s.split(/\s+/).filter(Boolean)`: whitespace-delimited tokens. -/
def splitWords (s : String) : List String := wordsAux s.data []

/-- JS `String.prototype.toLowerCase` (ASCII letters). -/
def lowerStr (s : String) : String := String.mk (s.data.map Char.toLower)

/-- Tests whether the first character of `s` is `c`. -/
def strStartsWithChar (s : String) (c : Char) : Bool :=
  match s.data with
  | [] => false
  | a :: _ => a == c

/-- The needle matches at the head of the haystack. -/
def leadMatch : List Char → List Char → Bool
  | [], _ => true
  | _ :: _, [] => false
  | a :: as, b :: bs => a == b && leadMatch as bs

/-- The needle occurs somewhere in the haystack. -/
def hasSubChars (needle : List Char) : List Char → Bool
  | [] => needle.isEmpty
  | c :: cs => leadMatch needle (c :: cs) || hasSubChars needle cs

/-- JS `hay.includes(needle)`. -/
def strIncludes (hay needle : String) : Bool := hasSubChars needle.data hay.data

/-- The regex `^\d{4}-\d{2}-\d{2}$` of `parseDateTime`. -/
def isDateTok (s : String) : Bool :=
  match s.data with
  | [a, b, c, d, '-', e, f, '-', g, h] =>
    a.isDigit && b.isDigit && c.isDigit && d.isDigit &&
      e.isDigit && f.isDigit && g.isDigit && h.isDigit
  | _ => false

/-- Optional case-insensitive `am`/`pm` suffix of a time token. -/
def ampmSuffix : List Char → Bool
  | [] => true
  | [a, m] => (a == 'a' || a == 'A' || a == 'p' || a == 'P') && (m == 'm' || m == 'M')
  | _ => false

/-- The regex `^\d{1,2}:\d{2}([ap]m)?$/i` of `parseDateTime`. -/
def isTimeTok (s : String) : Bool :=
  match s.data with
  | h1 :: ':' :: m1 :: m2 :: rest =>
    h1.isDigit && m1.isDigit && m2.isDigit && ampmSuffix rest
  | h1 :: h2 :: ':' :: m1 :: m2 :: rest =>
    h1.isDigit && h2.isDigit && m1.isDigit && m2.isDigit && ampmSuffix rest
  | _ => false

/-! ## Data model (§3 of the spec, fields as created by the source) -/

/-- A normalized place search result (planbot.ts `PlaceResult`). -/
structure PlaceResult where
  place_id : String
  name : String
  formatted_address : String
  rating : Option Rat := none
  types : List String := []
  lat : Option Rat := none
  lon : Option Rat := none
deriving DecidableEq

/-- A TMDB movie search result (planbot.ts `MovieResult`). -/
structure MovieResult where
  id : Nat
  title : String
  overview : String := ""
  poster_path : String := ""
  release_date : String := ""
  vote_average : Option Rat := none
  genre_ids : List Nat := []
deriving DecidableEq

/-- A session candidate: `PlaceResult | MovieResult` in the source. -/
inductive Item where
  | place (p : PlaceResult)
  | movie (m : MovieResult)
deriving DecidableEq

/-- Poll metadata (JSON-encoded in the source, kept parsed here). -/
structure Metadata where
  date : Option String := none
  time : Option String := none
  releaseDate : Option String := none
  rating : Option Rat := none
  types : List String := []
  source : Option String := none
  latitude : Option Rat := none
  longitude : Option Rat := none
deriving DecidableEq

/-- A Poll document. -/
structure Poll where
  id : Nat
  groupId : String
  creatorId : String
  creatorName : String
  ptype : String
  externalId : String
  title : String
  description : String
  image : String
  choices : List String := ["join", "maybe", "no"]
  active : Bool
  metadata : Metadata := {}
deriving DecidableEq

/-- A Vote document. -/
structure Vote where
  id : Nat
  pollId : Nat
  userId : String
  choice : String
deriving DecidableEq

/-- A Message document. -/
structure Message where
  id : Nat
  groupId : String
  senderId : String
  senderName : String
  senderAvatar : String := ""
  text : String
  isSystemMessage : Bool := false
  pollId : Option Nat := none
deriving DecidableEq

/-- Structured notification metadata built by `lockDecision`. -/
structure NotifMeta where
  groupId : String
  groupName : Option String
  pollId : Nat
  place : String
  address : String
  date : Option String
  time : Option String
  attendees : Nat
  itemType : String
deriving DecidableEq

/-- A Notification document. -/
structure Notification where
  id : Nat
  userId : String
  text : String
  metadata : Option NotifMeta
  read : Bool
  ntype : String
deriving DecidableEq

/-- A user-profile document (used by `getUserGenres`). -/
structure UserDoc where
  userId : String
  genres : List String
deriving DecidableEq

/-- A Reaction document. -/
structure Reaction where
  id : Nat
  messageId : Nat
  userId : String
  emoji : String
deriving DecidableEq

/-- The persistence gateway's state: one list per collection, in
creation order, plus the id counter. -/
structure Store where
  polls : List Poll := []
  votes : List Vote := []
  messages : List Message := []
  notifications : List Notification := []
  users : List UserDoc := []
  nextId : Nat := 0
deriving DecidableEq

/-- The whole mutable world: the store, the module-level PlanBot session
maps (`selectedItems`, `searchResults` in planbot.ts), and the failure
oracle for gateway calls. -/
structure World where
  store : Store
  selectedItems : List (String × Item) := []
  searchResults : List (String × List Item) := []
  fuel : List Bool := []
deriving DecidableEq

/-- Error taxonomy visible at the JS promise-rejection channel. -/
inductive Err where
  | persistence
  | notFound
  | permission
deriving DecidableEq

/-! ## The effect monad: state plus exceptions -/

/-- A stateful, fallible computation over the world. -/
def DB (α : Type) : Type := World → Except Err α × World

/-- Return a value, leaving the world unchanged. -/
def DB.pure (a : α) : DB α := fun w => (.ok a, w)

/-- Sequencing: a rejection short-circuits, keeping state mutated so far
(JS has no rollback). -/
def DB.bind (m : DB α) (f : α → DB β) : DB β := fun w =>
  match m w with
  | (.ok a, w2) => f a w2
  | (.error e, w2) => (.error e, w2)

instance : Monad DB where
  pure := DB.pure
  bind := DB.bind

/-- JS `try { m } catch { h }`. -/
def attempt (m h : DB α) : DB α := fun w =>
  match m w with
  | (.ok a, w2) => (.ok a, w2)
  | (.error _, w2) => h w2

/-- JS `throw`. -/
def dbThrow (e : Err) : DB α := fun w => (.error e, w)

/-- Wrap one gateway call: consume one oracle entry; `false` rejects. -/
def withTick (act : Store → Except Err α × Store) : DB α := fun w =>
  match w.fuel with
  | [] => ((act w.store).1, { w with store := (act w.store).2 })
  | true :: rest => ((act w.store).1, { w with store := (act w.store).2, fuel := rest })
  | false :: rest => (.error .persistence, { w with fuel := rest })

/-! ## Persistence gateway primitives -/

/-- `databases.listDocuments` on the polls collection with equality
filters, in creation order. -/
def dbListPolls (q : Poll → Bool) : DB (List Poll) :=
  withTick fun s => (.ok (s.polls.filter q), s)

/-- `databases.getDocument` on the polls collection. -/
def dbGetPoll (pid : Nat) : DB Poll :=
  withTick fun s =>
    match s.polls.find? (fun p => p.id == pid) with
    | some p => (.ok p, s)
    | none => (.error .notFound, s)

/-- `databases.createDocument` on the polls collection with
`ID.unique()`. -/
def dbCreatePoll (mk : Nat → Poll) : DB Poll :=
  withTick fun s =>
    (.ok (mk s.nextId), { s with polls := s.polls ++ [mk s.nextId], nextId := s.nextId + 1 })

/-- `databases.updateDocument` on the polls collection (partial update
of the document with the given id). -/
def dbUpdatePoll (pid : Nat) (f : Poll → Poll) : DB Unit :=
  withTick fun s =>
    (.ok (), { s with polls := s.polls.map fun p => if p.id == pid then f p else p })

/-- `databases.listDocuments` on the votes collection. -/
def dbListVotes (q : Vote → Bool) : DB (List Vote) :=
  withTick fun s => (.ok (s.votes.filter q), s)

/-- `databases.createDocument` on the votes collection. -/
def dbCreateVote (pollId : Nat) (userId choice : String) : DB Vote :=
  withTick fun s =>
    (.ok { id := s.nextId, pollId := pollId, userId := userId, choice := choice },
     { s with
        votes := s.votes ++ [{ id := s.nextId, pollId := pollId, userId := userId, choice := choice }],
        nextId := s.nextId + 1 })

/-- `databases.updateDocument` of a vote's choice. -/
def dbUpdateVoteChoice (vid : Nat) (choice : String) : DB Unit :=
  withTick fun s =>
    (.ok (), { s with votes := s.votes.map fun v => if v.id == vid then { v with choice := choice } else v })

/-- `databases.createDocument` on the messages collection. -/
def dbCreateMessage (mk : Nat → Message) : DB Message :=
  withTick fun s =>
    (.ok (mk s.nextId), { s with messages := s.messages ++ [mk s.nextId], nextId := s.nextId + 1 })

/-- `databases.createDocument` on the notifications collection. -/
def dbCreateNotification (mk : Nat → Notification) : DB Notification :=
  withTick fun s =>
    (.ok (mk s.nextId),
     { s with notifications := s.notifications ++ [mk s.nextId], nextId := s.nextId + 1 })

/-- `databases.listDocuments` on the users collection. -/
def dbListUsers (q : UserDoc → Bool) : DB (List UserDoc) :=
  withTick fun s => (.ok (s.users.filter q), s)

/-! ## In-memory session maps (no gateway call, no oracle entry) -/

/-- `Map.get` on a string-keyed association list. -/
def lookupA {β : Type} (l : List (String × β)) (k : String) : Option β :=
  (l.find? (fun kv => kv.1 == k)).map (fun kv => kv.2)

/-- `Map.set` on a string-keyed association list. -/
def setA {β : Type} (l : List (String × β)) (k : String) (v : β) : List (String × β) :=
  (k, v) :: l.filter (fun kv => kv.1 != k)

/-- `Map.delete` on a string-keyed association list. -/
def eraseA {β : Type} (l : List (String × β)) (k : String) : List (String × β) :=
  l.filter (fun kv => kv.1 != k)

def getSelectedItem (g : String) : DB (Option Item) :=
  fun w => (.ok (lookupA w.selectedItems g), w)

def setSelectedItem (g : String) (it : Item) : DB Unit :=
  fun w => (.ok (), { w with selectedItems := setA w.selectedItems g it })

def delSelectedItem (g : String) : DB Unit :=
  fun w => (.ok (), { w with selectedItems := eraseA w.selectedItems g })

def getSearchResults (g : String) : DB (Option (List Item)) :=
  fun w => (.ok (lookupA w.searchResults g), w)

def setSearchResults (g : String) (rs : List Item) : DB Unit :=
  fun w => (.ok (), { w with searchResults := setA w.searchResults g rs })

def delSearchResults (g : String) : DB Unit :=
  fun w => (.ok (), { w with searchResults := eraseA w.searchResults g })

/-! ## Poll helpers (src/src/pages/notifications.tsx, pollHelpers section)

The `catch` blocks of `createPoll`, `activatePoll` and `castVote` only
log and rethrow, so they are semantically transparent and not modelled.
`Promise.all` over the deactivation updates is modelled sequentially
(`deactivateEach`); each update is an independent gateway call either
way. -/

/-- Input payload of `createPoll` (`PollData` in the source).  The
source's `type` field is the TypeScript union literal
`"movie" | "place"`; that restriction is static only and erased at
runtime, so the model carries a plain string. -/
structure PollData where
  groupId : String
  creatorId : String
  creatorName : String
  ptype : String
  externalId : String
  title : String
  description : Option String := none
  image : Option String := none
  metadata : Option Metadata := none
deriving DecidableEq

/-- One `updateDocument(..., { active: false })` per listed poll. -/
def deactivateEach : List Poll → DB Unit
  | [] => pure ()
  | p :: rest => do
    dbUpdatePoll p.id (fun q => { q with active := false })
    deactivateEach rest

/-- The document `createPoll` inserts for a draft, given the fresh id. -/
def newPollOf (pd : PollData) (nid : Nat) : Poll :=
  { id := nid, groupId := pd.groupId, creatorId := pd.creatorId,
    creatorName := pd.creatorName, ptype := pd.ptype,
    externalId := pd.externalId, title := pd.title,
    description := pd.description.getD "", image := pd.image.getD "",
    choices := ["join", "maybe", "no"], active := true,
    metadata := pd.metadata.getD {} }

/-- `createPoll`: list the group's polls, deactivate the active ones,
then insert the new poll as active.  There is no runtime validation of
`type` or `title` in the source. -/
def createPoll (pd : PollData) : DB Poll := do
  let existing ← dbListPolls (fun p => p.groupId == pd.groupId)
  deactivateEach (existing.filter (fun p => p.active))
  dbCreatePoll (newPollOf pd)

/-- `activatePoll`: creator-only; deactivate every other active poll of
the same group, then set this poll active. -/
def activatePoll (pollId : Nat) (userId : String) : DB Unit := do
  let poll ← dbGetPoll pollId
  if poll.creatorId ≠ userId then
    dbThrow .permission
  else do
    let existing ← dbListPolls (fun p => p.groupId == poll.groupId && p.active)
    deactivateEach (existing.filter (fun p => p.id != pollId))
    dbUpdatePoll pollId (fun q => { q with active := true })

/-- `getActivePoll`: `listDocuments` filtered on the group and
`active = true` with `Query.limit(1)` and no order query, then
`documents[0] || null`; any storage error is caught and becomes
`null`. -/
def getActivePoll (groupId : String) : DB (Option Poll) :=
  attempt
    (do
      let polls ← dbListPolls (fun p => p.groupId == groupId && p.active)
      pure ((polls.take 1).head?))
    (pure none)

/-- `getGroupPolls`: the group's polls newest-first
(`Query.orderDesc("$createdAt")`, `Query.limit(100)`); errors become
an empty list. -/
def getGroupPolls (groupId : String) : DB (List Poll) :=
  attempt
    (do
      let polls ← dbListPolls (fun p => p.groupId == groupId)
      pure (polls.reverse.take 100))
    (pure [])

/-- `getPollVotes`: the poll's votes; errors become an empty list. -/
def getPollVotes (pollId : Nat) : DB (List Vote) :=
  attempt
    (do
      let votes ← dbListVotes (fun v => v.pollId == pollId)
      pure votes)
    (pure [])

/-- `castVote`: if a vote by `userId` on `pollId` exists, update
`documents[0]`'s choice, else insert a new vote.  The source restricts
`choice` to `"join" | "maybe" | "no"` statically only. -/
def castVote (pollId : Nat) (userId choice : String) : DB Unit := do
  let existing ← dbListVotes (fun v => v.pollId == pollId && v.userId == userId)
  match existing.head? with
  | some v => dbUpdateVoteChoice v.id choice
  | none => do
    let _ ← dbCreateVote pollId userId choice
    pure ()

/-! ## PlanBot (src/src/lib/planbot.ts) -/

/-- `currentUser` of the `PlanbotContext`. -/
structure UserCtx where
  id : String
  name : String
  avatar : Option String := none
deriving DecidableEq

/-- `group` of the `PlanbotContext`. -/
structure GroupCtx where
  id : String
  name : String
  members : List String := []
deriving DecidableEq

/-- The `PlanbotContext` the UI passes in. -/
structure PlanbotContext where
  groupId : String
  currentUser : UserCtx
  group : Option GroupCtx := none
deriving DecidableEq

/-- The `PlanbotResult` returned to the chat stream. -/
structure PlanbotResult where
  handled : Bool
deriving DecidableEq

/-- `sendSystemMessage`: one unguarded `createDocument` on messages,
attributed to the reserved `planbot` sender. -/
def sendSystemMessage (groupId text : String) : DB Unit := do
  let _ ← dbCreateMessage fun nid =>
    { id := nid, groupId := groupId, senderId := "planbot", senderName := "PlanBot",
      senderAvatar := "", text := text, isSystemMessage := true, pollId := none }
  pure ()

/-- `sendPersonalNotification`: one `createDocument` on notifications,
with its own `try`/`catch`, so a failure is swallowed. -/
def sendPersonalNotification (userId text : String) (metadata : Option NotifMeta) : DB Unit :=
  attempt
    (do
      let _ ← dbCreateNotification fun nid =>
        { id := nid, userId := userId, text := text, metadata := metadata,
          read := false, ntype := "plan_confirmation" }
      pure ())
    (pure ())

/-- The leading-slash strip of `parseArgs`.  The source regex is
`/^\/?|^!/`; its first alternative matches (possibly empty) at
position 0, so only a leading `/` is ever removed and a leading `!` is
kept. -/
def stripSlash (s : String) : String :=
  match s.data with
  | '/' :: rest => String.mk rest
  | _ => s

/-- `parseArgs`: trim, strip the prefix, split on whitespace, lowercase
the first token. -/
def parseArgs (input : String) : String × List String :=
  let trimmed := stripSlash (strTrim input)
  match splitWords trimmed with
  | [] => ("", [])
  | c :: rest => (lowerStr c, rest)

/-- `getUserGenres`: the caller's stored genre preferences; errors and
a missing profile both become an empty list. -/
def getUserGenres (userId : String) : DB (List String) :=
  attempt
    (do
      let docs ← dbListUsers (fun u => u.userId == userId)
      match docs.head? with
      | some u => pure u.genres
      | none => pure [])
    (pure [])

/-- Numbered list line for a place. -/
def placeLine (pr : Nat × PlaceResult) : String :=
  toString (pr.1 + 1) ++ ". " ++ pr.2.name ++ " - " ++ pr.2.formatted_address

/-- `suggestOutings` (the `/planOutings` command): search places, post
the numbered candidate list, store the top five as session results.
`searchPlaces` is the injected lookup `sp`; in the source it catches
all of its own errors and returns a list, so it is total here. -/
def suggestOutings (sp : String → String → List PlaceResult)
    (groupId : String) (args : List String) : DB Unit :=
  match args with
  | area :: city :: rest => do
    let category := rest.headD "cafe"
    let location := area ++ " " ++ city
    sendSystemMessage groupId
      ("Searching for " ++ category ++ "s in " ++ location ++ " ...")
    attempt
      (do
        let places := sp location category
        if places.isEmpty then
          sendSystemMessage groupId
            ("No " ++ category ++ "s found in " ++ location ++ ". Try a different area or category.")
        else do
          let top := places.take 5
          sendSystemMessage groupId
            ("Top " ++ category ++ " suggestions in " ++ location ++ ":\n" ++
              String.intercalate "\n" (top.enum.map placeLine) ++
              "\nUse /select <name> to choose one, then /when to set date/time.")
          setSearchResults groupId (top.map Item.place))
      (sendSystemMessage groupId "Failed to fetch suggestions.")
  | _ =>
    sendSystemMessage groupId
      "Usage: /planOutings <area> <city> [category]. Example: /planOutings whitefield bangalore cafe"

/-- Numbered list line for a movie. -/
def movieLine (pr : Nat × MovieResult) : String :=
  toString (pr.1 + 1) ++ ". " ++ pr.2.title

/-- `suggestMovies` (the `/planMovies` command): look up the caller's
genres, query the movie capability `sm` (which can throw), post the
list, store the results as session results. -/
def suggestMovies (sm : List String → Except Err (List MovieResult))
    (groupId userId userName : String) : DB Unit := do
  sendSystemMessage groupId "Finding movie recommendations based on your preferences ..."
  attempt
    (do
      let userGenres ← getUserGenres userId
      if userGenres.isEmpty then
        sendSystemMessage groupId
          "No favorite genres found in your profile. Please update your genres in Profile settings first."
      else do
        let movies ← (match sm userGenres with
          | .ok ms => (pure ms : DB (List MovieResult))
          | .error e => dbThrow e)
        if movies.isEmpty then
          sendSystemMessage groupId "No movies found. Try updating your genre preferences."
        else do
          sendSystemMessage groupId
            ("Top movie recommendations for " ++ userName ++ ":\n" ++
              String.intercalate "\n" (movies.enum.map movieLine) ++
              "\nUse /select <movie title> to choose one, then /when to set date/time.")
          setSearchResults groupId (movies.map Item.movie))
    (sendSystemMessage groupId "Failed to fetch movie suggestions.")

/-- Display name of a session candidate. -/
def itemTitle : Item → String
  | .place p => p.name
  | .movie m => m.title

/-- `selectItem` (the `/select` command): case-insensitive substring
match of the argument against the stored session results (the source
dispatches on whether `results[0]` is a movie). -/
def selectItem (groupId : String) (args : List String) : DB Unit := do
  if args.isEmpty then
    sendSystemMessage groupId "Usage: /select <name>. Example: /select Third Wave Coffee"
  else do
    let wanted := lowerStr (String.intercalate " " args)
    let results? ← getSearchResults groupId
    match results? with
    | none =>
      sendSystemMessage groupId "No search results available. Run /planOutings or /planMovies first."
    | some [] =>
      sendSystemMessage groupId "No search results available. Run /planOutings or /planMovies first."
    | some (r0 :: rs) =>
      let results := r0 :: rs
      let isMovie := match r0 with | .movie _ => true | .place _ => false
      let selected :=
        if isMovie then
          results.find? fun it =>
            match it with
            | .movie m => strIncludes (lowerStr m.title) wanted
            | .place _ => false
        else
          results.find? fun it =>
            match it with
            | .place p => strIncludes (lowerStr p.name) wanted
            | .movie _ => false
      match selected with
      | none =>
        sendSystemMessage groupId
          ("Item not found. Available options:\n" ++
            String.intercalate "\n"
              (results.enum.map fun pr => toString (pr.1 + 1) ++ ". " ++ itemTitle pr.2))
      | some it => do
        setSelectedItem groupId it
        sendSystemMessage groupId
          ("Selected: " ++ itemTitle it ++ ". Use /when YYYY-MM-DD HH:MM to set date and time.")

/-- Result of `parseDateTime`. -/
structure DateTimeArgs where
  date : Option String := none
  time : Option String := none
deriving DecidableEq

/-- `parseDateTime`: scan the argument list; every token matching the
date regex overwrites `date`, every token matching the time regex
overwrites `time` (lowercased), exactly as the source's loop does. -/
def parseDateTime (args : List String) : DateTimeArgs :=
  args.foldl
    (fun st a =>
      { date := if isDateTok a then some a else st.date,
        time := if isTimeTok a then some (lowerStr a) else st.time })
    {}

/-- Metadata written by `attachWhen` for the selected candidate. -/
def whenMetadata (date time : String) : Item → Metadata
  | .place p =>
    { date := some date, time := some time, rating := some (p.rating.getD 0),
      types := p.types, source := some "planbot",
      latitude := p.lat, longitude := p.lon }
  | .movie m =>
    { date := some date, time := some time, releaseDate := some m.release_date,
      rating := m.vote_average, source := some "planbot" }

/-- Poll type tag written by `attachWhen`. -/
def whenPtype : Item → String
  | .place _ => "place"
  | .movie _ => "movie"

/-- Poll description written by `attachWhen`. -/
def whenDescription : Item → String
  | .place p => p.formatted_address
  | .movie m => m.overview

/-- External id written by `attachWhen`. -/
def whenExternalId : Item → String
  | .place p => p.place_id
  | .movie m => toString m.id

/-- Poster image url written by `attachWhen`. -/
def whenImage : Item → String
  | .place _ => ""
  | .movie m => if m.poster_path == "" then "" else "https://image.tmdb.org/t/p/w500" ++ m.poster_path

/-- `attachWhen` (the `/when` command): requires a selected item and
both a date and a time token; deactivates every active poll of the
group, inserts the new active poll, posts the announcement message and
the system message, then clears the session. -/
def attachWhen (groupId : String) (args : List String) (currentUser : UserCtx) : DB Unit := do
  let selected? ← getSelectedItem groupId
  match selected? with
  | none => sendSystemMessage groupId "No item selected. Use /select <name> first."
  | some sel => do
    let dt := parseDateTime args
    -- the source checks `if (!date || !time)` and sends the usage
    -- message; the two nested matches below are that same test
    match dt.date with
    | none =>
      sendSystemMessage groupId "Usage: /when YYYY-MM-DD HH:MM. Example: /when 2025-10-30 19:30"
    | some date =>
      match dt.time with
      | none =>
        sendSystemMessage groupId "Usage: /when YYYY-MM-DD HH:MM. Example: /when 2025-10-30 19:30"
      | some time =>
        attempt
          (do
            let existing ← dbListPolls (fun p => p.groupId == groupId && p.active)
            deactivateEach existing
            let title := itemTitle sel
            let newPoll ← dbCreatePoll fun nid =>
              { id := nid, groupId := groupId, creatorId := currentUser.id,
                creatorName := currentUser.name, ptype := whenPtype sel,
                externalId := whenExternalId sel, title := title,
                description := whenDescription sel, image := whenImage sel,
                choices := ["join", "maybe", "no"], active := true,
                metadata := whenMetadata date time sel }
            let _ ← dbCreateMessage fun nid =>
              { id := nid, groupId := groupId, senderId := currentUser.id,
                senderName := currentUser.name, senderAvatar := currentUser.avatar.getD "",
                text := "New poll created: " ++ title, isSystemMessage := false,
                pollId := some newPoll.id }
            sendSystemMessage groupId
              ("Poll Created! " ++ title ++ " Date: " ++ date ++ " Time: " ++ time ++
                ". Vote Join/Maybe/No in the sidebar!")
            delSelectedItem groupId
            delSearchResults groupId)
          (sendSystemMessage groupId "Failed to create poll.")

/-- `rsvpSummary` (the `/rsvp` command). -/
def rsvpSummary (groupId : String) : DB Unit := do
  let active? ← getActivePoll groupId
  match active? with
  | none => sendSystemMessage groupId "No active poll to summarize."
  | some active => do
    let votes ← getPollVotes active.id
    let joinC := (votes.filter (fun v => v.choice == "join")).length
    let maybeC := (votes.filter (fun v => v.choice == "maybe")).length
    let noC := (votes.filter (fun v => v.choice == "no")).length
    sendSystemMessage groupId
      ("RSVP Summary: " ++ active.title ++ ". Joining: " ++ toString joinC ++
        ". Maybe: " ++ toString maybeC ++ ". Not joining: " ++ toString noC ++
        ". Use /lock to finalize the plan.")

/-- The group-chat summary posted by `lockDecision` (markdown and emoji
decoration elided; empty lines are dropped by `filter(Boolean)`). -/
def lockSummaryText (active : Poll) (joiners maybes : List Vote) : String :=
  String.intercalate "\n"
    (["Plan Locked!",
      active.title,
      active.description,
      (match active.metadata.date with | some d => "Date: " ++ d | none => ""),
      (match active.metadata.time with | some t => "Time: " ++ t | none => ""),
      "Attending (" ++ toString joiners.length ++ ")",
      (if joiners.length > 0 then toString joiners.length ++ " confirmed" else "No confirmations yet"),
      (if maybes.length > 0 then toString maybes.length ++ " maybe" else ""),
      "See you there!"].filter (fun l => l != ""))

/-- The personal-notification text posted by `lockDecision`. -/
def lockNotifText (active : Poll) (groupName : Option String) (nJoin : Nat) : String :=
  String.intercalate "\n"
    (["Plan Confirmed!",
      active.title,
      active.description,
      (match active.metadata.date with | some d => d | none => ""),
      (match active.metadata.time with | some t => t | none => ""),
      "Group: " ++ groupName.getD "Your group",
      toString nJoin ++ " attending",
      "Dont forget!"].filter (fun l => l != ""))

/-- The per-joiner notification loop at the end of `lockDecision`. -/
def notifyEach (text : String) (meta : NotifMeta) : List Vote → DB Unit
  | [] => pure ()
  | v :: rest => do
    sendPersonalNotification v.userId text (some meta)
    notifyEach text meta rest

/-- `lockDecision` (the `/lock` command): read the active poll and its
votes, deactivate the poll, post the summary, then send one personal
notification per `join` voter. -/
def lockDecision (groupId : String) (groupName : Option String) : DB Unit := do
  let active? ← getActivePoll groupId
  match active? with
  | none => sendSystemMessage groupId "No active plan to lock."
  | some active => do
    let votes ← getPollVotes active.id
    let joiners := votes.filter (fun v => v.choice == "join")
    let maybes := votes.filter (fun v => v.choice == "maybe")
    dbUpdatePoll active.id (fun q => { q with active := false })
    sendSystemMessage groupId (lockSummaryText active joiners maybes)
    let nmeta : NotifMeta :=
      { groupId := groupId, groupName := groupName, pollId := active.id,
        place := active.title, address := active.description,
        date := active.metadata.date, time := active.metadata.time,
        attendees := joiners.length, itemType := active.ptype }
    notifyEach (lockNotifText active groupName joiners.length) nmeta joiners

/-- The static `/help` reference text. -/
def helpText : String :=
  String.intercalate "\n"
    ["PlanBot Commands",
     "/planOutings <area> <city> [category] - search for places in a specific area",
     "/planMovies - recommend movies based on your favorite genres",
     "/select <name> - choose an item from search results",
     "/when YYYY-MM-DD HH:MM - create poll with date and time",
     "/rsvp - show current RSVP summary",
     "/lock - lock and finalize the plan",
     "/help - show this help message"]

/-- The `/help` command. -/
def help (groupId : String) : DB Unit :=
  sendSystemMessage groupId helpText

/-- `handlePlanbotCommand`: the single command entry point.  Input not
starting with `/` or `!` is not handled; otherwise the first token is
dispatched and the result is always `handled = true`.  The dispatch
itself has no `try`/`catch`. -/
def handlePlanbotCommand (sp : String → String → List PlaceResult)
    (sm : List String → Except Err (List MovieResult))
    (input : String) (ctx : PlanbotContext) : DB PlanbotResult := do
  let trimmed := strTrim input
  if !(strStartsWithChar trimmed '/' || strStartsWithChar trimmed '!') then
    pure { handled := false }
  else do
    let pa := parseArgs trimmed
    let cmd := pa.1
    let args := pa.2
    if cmd = "help" then do
      help ctx.groupId
      pure { handled := true }
    else if cmd = "planoutings" then do
      suggestOutings sp ctx.groupId args
      pure { handled := true }
    else if cmd = "planmovies" then do
      suggestMovies sm ctx.groupId ctx.currentUser.id ctx.currentUser.name
      pure { handled := true }
    else if cmd = "select" then do
      selectItem ctx.groupId args
      pure { handled := true }
    else if cmd = "when" then do
      attachWhen ctx.groupId args ctx.currentUser
      pure { handled := true }
    else if cmd = "rsvp" then do
      rsvpSummary ctx.groupId
      pure { handled := true }
    else if cmd = "lock" then do
      lockDecision ctx.groupId (ctx.group.map (fun g => g.name))
      pure { handled := true }
    else do
      sendSystemMessage ctx.groupId "Unknown command. Use /help for available commands."
      pure { handled := true }

/-! ## Realtime subscription handlers (src/src/pages/group-chat.tsx)

Each handler embeds one `client.subscribe` callback: given the
subscriber's `groupId`, the event kind (`create`/`update`) and the
payload, it maps the subscriber's current state list to the next one. -/

/-- Event operation tag of a realtime event. -/
inductive EvOp where
  | create
  | update
deriving DecidableEq

/-- The messages subscription callback: applies the event only when
`payload.groupId === groupId`. -/
def applyMessageSub (groupId : String) (op : EvOp) (payload : Message)
    (st : List Message) : List Message :=
  if payload.groupId == groupId then
    match op with
    | .create => st ++ [payload]
    | .update => st.map fun m => if m.id == payload.id then payload else m
  else st

/-- The polls subscription callback: applies the event only when
`payload.groupId === groupId` (creates are prepended). -/
def applyPollSub (groupId : String) (op : EvOp) (payload : Poll)
    (st : List Poll) : List Poll :=
  if payload.groupId == groupId then
    match op with
    | .create => payload :: st
    | .update => st.map fun p => if p.id == payload.id then payload else p
  else st

/-- The votes subscription callback: the source performs no group check
at all, so the subscriber's group is ignored. -/
def applyVoteSub (_groupId : String) (op : EvOp) (payload : Vote)
    (st : List Vote) : List Vote :=
  match op with
  | .create => st ++ [payload]
  | .update => st.map fun v => if v.id == payload.id then payload else v

/-- The reactions subscription callback: no group check either, and only
`create` events are handled. -/
def applyReactionSub (_groupId : String) (op : EvOp) (payload : Reaction)
    (st : List Reaction) : List Reaction :=
  match op with
  | .create => st ++ [payload]
  | .update => st

/-- The group a vote belongs to: the group of its poll. -/
def voteGroup (s : Store) (v : Vote) : Option String :=
  (s.polls.find? (fun p => p.id == v.pollId)).map (fun p => p.groupId)

/-- Number of active polls a group has in a store (the §8 invariant
counts this). -/
def countActive (s : Store) (g : String) : Nat :=
  (s.polls.filter fun p => p.groupId == g && p.active).length

/-- The run preserves oracle exhaustion. -/
def fuelPres (m : DB α) : Prop :=
  ∀ w, w.fuel = [] → (m w).2.fuel = []

/-- The run succeeds and preserves oracle exhaustion. -/
def allOk (m : DB α) : Prop :=
  ∀ w, w.fuel = [] → ∃ a w2, m w = (.ok a, w2) ∧ w2.fuel = []

/-- Pointwise effect of the deactivation sweep. -/
def deactIf (ids : List Nat) (q : Poll) : Poll :=
  if q.id ∈ ids then { q with active := false } else q

/-- Left-biased choice on options (`a` wins when present). -/
def optOr {α : Type} : Option α → Option α → Option α
  | some a, _ => some a
  | none, b => b

/-- Older active poll used by the C4 counterexample and witness. -/
def c4PollOld : Poll :=
  { id := 0, groupId := "g", creatorId := "u", creatorName := "U", ptype := "place",
    externalId := "x", title := "first", description := "", image := "", active := true }

/-- Newer active poll used by the C4 counterexample. -/
def c4PollNew : Poll :=
  { id := 1, groupId := "g", creatorId := "u", creatorName := "U", ptype := "place",
    externalId := "y", title := "second", description := "", image := "", active := true }

/-- Poll used by the C6 witness. -/
def c6Poll : Poll :=
  { id := 0, groupId := "g", creatorId := "u", creatorName := "U", ptype := "place",
    externalId := "x", title := "Cafe", description := "addr", image := "", active := true }

/-- Store used by the C6 witness: one active poll, three votes
(join / maybe / no by three users). -/
def c6Store : Store :=
  { polls := [c6Poll],
    votes := [{ id := 1, pollId := 0, userId := "u1", choice := "join" },
              { id := 2, pollId := 0, userId := "u2", choice := "maybe" },
              { id := 3, pollId := 0, userId := "u3", choice := "no" }],
    nextId := 4 }

/-- Store used by the C1 witness: one active poll owned by `u`. -/
def c1Store : Store :=
  { polls := [{ id := 0, groupId := "g", creatorId := "u", creatorName := "U",
                ptype := "place", externalId := "x", title := "Old", description := "",
                image := "", active := true }],
    nextId := 1 }

/-- Draft used by the C1 witness. -/
def c1Draft : PollData :=
  { groupId := "g", creatorId := "u", creatorName := "U", ptype := "place",
    externalId := "y", title := "New" }


/-! ## Basic run lemmas for the effect monad -/

theorem run_pure (a : α) (w : World) : (Pure.pure a : DB α) w = (.ok a, w) := rfl

theorem run_bind (m : DB α) (f : α → DB β) (w : World) :
    (m >>= f) w =
      match m w with
      | (.ok a, w2) => f a w2
      | (.error e, w2) => (.error e, w2) := rfl

theorem bind_ok {m : DB α} {f : α → DB β} {w w2 : World} {a : α}
    (h : m w = (.ok a, w2)) : (m >>= f) w = f a w2 := by
  rw [run_bind, h]

theorem bind_err {m : DB α} {f : α → DB β} {w w2 : World} {e : Err}
    (h : m w = (.error e, w2)) : (m >>= f) w = (.error e, w2) := by
  rw [run_bind, h]

theorem attempt_ok {m h : DB α} {w w2 : World} {a : α}
    (hm : m w = (.ok a, w2)) : attempt m h w = (.ok a, w2) := by
  unfold attempt; rw [hm]

theorem attempt_err {m h : DB α} {w w2 : World} {e : Err}
    (hm : m w = (.error e, w2)) : attempt m h w = h w2 := by
  unfold attempt; rw [hm]

theorem withTick_nil {act : Store → Except Err α × Store} {w : World}
    (h : w.fuel = []) :
    withTick act w = ((act w.store).1, { w with store := (act w.store).2 }) := by
  unfold withTick; rw [h]

theorem withTick_false {act : Store → Except Err α × Store} {w : World}
    {fs : List Bool} (h : w.fuel = false :: fs) :
    withTick act w = (.error .persistence, { w with fuel := fs }) := by
  unfold withTick; rw [h]

/-! ## Run lemmas for the gateway primitives under an all-success oracle -/

theorem dbListPolls_nil {w : World} (h : w.fuel = []) (q : Poll → Bool) :
    dbListPolls q w = (.ok (w.store.polls.filter q), w) := by
  unfold dbListPolls
  rw [withTick_nil h]

theorem dbGetPoll_nil {w : World} (h : w.fuel = []) (pid : Nat) :
    dbGetPoll pid w =
      (match w.store.polls.find? (fun p => p.id == pid) with
        | some p => (.ok p, w)
        | none => (.error .notFound, w)) := by
  unfold dbGetPoll
  rw [withTick_nil h]
  cases w.store.polls.find? (fun p => p.id == pid) <;> rfl

theorem dbCreatePoll_nil {w : World} (h : w.fuel = []) (mk : Nat → Poll) :
    dbCreatePoll mk w =
      (.ok (mk w.store.nextId),
       { w with store := { w.store with
            polls := w.store.polls ++ [mk w.store.nextId],
            nextId := w.store.nextId + 1 } }) := by
  unfold dbCreatePoll
  rw [withTick_nil h]

theorem dbUpdatePoll_nil {w : World} (h : w.fuel = []) (pid : Nat) (f : Poll → Poll) :
    dbUpdatePoll pid f w =
      (.ok (),
       { w with store := { w.store with
            polls := w.store.polls.map fun p => if p.id == pid then f p else p } }) := by
  unfold dbUpdatePoll
  rw [withTick_nil h]

theorem dbListVotes_nil {w : World} (h : w.fuel = []) (q : Vote → Bool) :
    dbListVotes q w = (.ok (w.store.votes.filter q), w) := by
  unfold dbListVotes
  rw [withTick_nil h]

theorem dbCreateVote_nil {w : World} (h : w.fuel = []) (pollId : Nat) (userId choice : String) :
    dbCreateVote pollId userId choice w =
      (.ok { id := w.store.nextId, pollId := pollId, userId := userId, choice := choice },
       { w with store := { w.store with
            votes := w.store.votes ++
              [{ id := w.store.nextId, pollId := pollId, userId := userId, choice := choice }],
            nextId := w.store.nextId + 1 } }) := by
  unfold dbCreateVote
  rw [withTick_nil h]

theorem dbUpdateVoteChoice_nil {w : World} (h : w.fuel = []) (vid : Nat) (choice : String) :
    dbUpdateVoteChoice vid choice w =
      (.ok (),
       { w with store := { w.store with
            votes := w.store.votes.map
              fun v => if v.id == vid then { v with choice := choice } else v } }) := by
  unfold dbUpdateVoteChoice
  rw [withTick_nil h]

theorem dbCreateMessage_nil {w : World} (h : w.fuel = []) (mk : Nat → Message) :
    dbCreateMessage mk w =
      (.ok (mk w.store.nextId),
       { w with store := { w.store with
            messages := w.store.messages ++ [mk w.store.nextId],
            nextId := w.store.nextId + 1 } }) := by
  unfold dbCreateMessage
  rw [withTick_nil h]

theorem dbCreateNotification_nil {w : World} (h : w.fuel = []) (mk : Nat → Notification) :
    dbCreateNotification mk w =
      (.ok (mk w.store.nextId),
       { w with store := { w.store with
            notifications := w.store.notifications ++ [mk w.store.nextId],
            nextId := w.store.nextId + 1 } }) := by
  unfold dbCreateNotification
  rw [withTick_nil h]

theorem dbListUsers_nil {w : World} (h : w.fuel = []) (q : UserDoc → Bool) :
    dbListUsers q w = (.ok (w.store.users.filter q), w) := by
  unfold dbListUsers
  rw [withTick_nil h]

/-! ## Fuel-preservation and success predicates

`fuelPres m`: running `m` from a world whose oracle is exhausted leaves
the oracle exhausted (whatever the outcome).  `allOk m`: in addition the
run succeeds.  These carry the proof that, when every gateway call
succeeds, PlanBot functions neither reject nor consume oracle. -/

theorem allOk.toFuelPres {m : DB α} (h : allOk m) : fuelPres m := by
  intro w hw
  obtain ⟨a, w2, hrun, hf⟩ := h w hw
  rw [hrun]
  exact hf

theorem allOk_pure (a : α) : allOk (pure a : DB α) := by
  intro w hw
  exact ⟨a, w, rfl, hw⟩

theorem allOk_bind {m : DB α} {f : α → DB β}
    (hm : allOk m) (hf : ∀ a, allOk (f a)) : allOk (m >>= f) := by
  intro w hw
  obtain ⟨a, w2, hrun, hw2⟩ := hm w hw
  obtain ⟨b, w3, hrun2, hw3⟩ := hf a w2 hw2
  exact ⟨b, w3, by rw [bind_ok hrun, hrun2], hw3⟩

theorem fuelPres_pure (a : α) : fuelPres (pure a : DB α) := by
  intro w hw
  exact hw

theorem fuelPres_throw (e : Err) : fuelPres (dbThrow e : DB α) := by
  intro w hw
  exact hw

theorem fuelPres_bind {m : DB α} {f : α → DB β}
    (hm : fuelPres m) (hf : ∀ a, fuelPres (f a)) : fuelPres (m >>= f) := by
  intro w hw
  rw [run_bind]
  rcases hr : m w with ⟨r, w2⟩
  have hw2 : w2.fuel = [] := by have := hm w hw; rw [hr] at this; exact this
  cases r with
  | ok a => exact hf a w2 hw2
  | error e => exact hw2

theorem allOk_attempt {m h : DB α} (hm : fuelPres m) (hh : allOk h) :
    allOk (attempt m h) := by
  intro w hw
  unfold attempt
  rcases hr : m w with ⟨r, w2⟩
  have hw2 : w2.fuel = [] := by have := hm w hw; rw [hr] at this; exact this
  cases r with
  | ok a => exact ⟨a, w2, rfl, hw2⟩
  | error e => exact hh w2 hw2

theorem fuelPres_attempt {m h : DB α} (hm : fuelPres m) (hh : fuelPres h) :
    fuelPres (attempt m h) := by
  intro w hw
  unfold attempt
  rcases hr : m w with ⟨r, w2⟩
  have hw2 : w2.fuel = [] := by have := hm w hw; rw [hr] at this; exact this
  cases r with
  | ok a => exact hw2
  | error e => exact hh w2 hw2

theorem allOk_ite {c : Prop} [Decidable c] {t e : DB α}
    (ht : allOk t) (he : allOk e) : allOk (if c then t else e) := by
  by_cases hc : c
  · rw [if_pos hc]; exact ht
  · rw [if_neg hc]; exact he

theorem fuelPres_ite {c : Prop} [Decidable c] {t e : DB α}
    (ht : fuelPres t) (he : fuelPres e) : fuelPres (if c then t else e) := by
  by_cases hc : c
  · rw [if_pos hc]; exact ht
  · rw [if_neg hc]; exact he

theorem allOk_withTick (act : Store → Except Err α × Store)
    (hact : ∀ s, ∃ a, (act s).1 = .ok a) : allOk (withTick act) := by
  intro w hw
  rw [withTick_nil hw]
  obtain ⟨a, ha⟩ := hact w.store
  exact ⟨a, { w with store := (act w.store).2 }, by rw [ha], hw⟩

theorem fuelPres_withTick (act : Store → Except Err α × Store) :
    fuelPres (withTick act) := by
  intro w hw
  rw [withTick_nil hw]
  exact hw

theorem allOk_dbListPolls (q : Poll → Bool) : allOk (dbListPolls q) :=
  allOk_withTick _ (fun s => ⟨s.polls.filter q, rfl⟩)

theorem allOk_dbCreatePoll (mk : Nat → Poll) : allOk (dbCreatePoll mk) :=
  allOk_withTick _ (fun s => ⟨mk s.nextId, rfl⟩)

theorem allOk_dbUpdatePoll (pid : Nat) (f : Poll → Poll) : allOk (dbUpdatePoll pid f) :=
  allOk_withTick _ (fun _ => ⟨(), rfl⟩)

theorem allOk_dbListVotes (q : Vote → Bool) : allOk (dbListVotes q) :=
  allOk_withTick _ (fun s => ⟨s.votes.filter q, rfl⟩)

theorem allOk_dbCreateVote (pollId : Nat) (userId choice : String) :
    allOk (dbCreateVote pollId userId choice) :=
  allOk_withTick _ (fun s => ⟨{ id := s.nextId, pollId := pollId, userId := userId, choice := choice }, rfl⟩)

theorem allOk_dbUpdateVoteChoice (vid : Nat) (choice : String) :
    allOk (dbUpdateVoteChoice vid choice) :=
  allOk_withTick _ (fun _ => ⟨(), rfl⟩)

theorem allOk_dbCreateMessage (mk : Nat → Message) : allOk (dbCreateMessage mk) :=
  allOk_withTick _ (fun s => ⟨mk s.nextId, rfl⟩)

theorem allOk_dbCreateNotification (mk : Nat → Notification) : allOk (dbCreateNotification mk) :=
  allOk_withTick _ (fun s => ⟨mk s.nextId, rfl⟩)

theorem allOk_dbListUsers (q : UserDoc → Bool) : allOk (dbListUsers q) :=
  allOk_withTick _ (fun s => ⟨s.users.filter q, rfl⟩)

theorem allOk_getSelectedItem (g : String) : allOk (getSelectedItem g) := by
  intro w hw
  exact ⟨_, w, rfl, hw⟩

theorem allOk_setSelectedItem (g : String) (it : Item) : allOk (setSelectedItem g it) := by
  intro w hw
  exact ⟨(), _, rfl, hw⟩

theorem allOk_delSelectedItem (g : String) : allOk (delSelectedItem g) := by
  intro w hw
  exact ⟨(), _, rfl, hw⟩

theorem allOk_getSearchResults (g : String) : allOk (getSearchResults g) := by
  intro w hw
  exact ⟨_, w, rfl, hw⟩

theorem allOk_setSearchResults (g : String) (rs : List Item) : allOk (setSearchResults g rs) := by
  intro w hw
  exact ⟨(), _, rfl, hw⟩

theorem allOk_delSearchResults (g : String) : allOk (delSearchResults g) := by
  intro w hw
  exact ⟨(), _, rfl, hw⟩

/-! ## Deactivation algebra

`deactivateEach ps` performs one id-keyed update per listed poll; its
cumulative effect on the store is `deactIf` over the listed ids. -/

theorem mapExt {α β : Type} (l : List α) {f g : α → β} (h : ∀ a, f a = g a) :
    l.map f = l.map g := by
  induction l with
  | nil => rfl
  | cons a t ih => simp [h a, ih]

theorem deactIf_nil (q : Poll) : deactIf [] q = q := by
  simp [deactIf]

theorem deactIf_id (ids : List Nat) (q : Poll) : (deactIf ids q).id = q.id := by
  unfold deactIf
  split <;> rfl

theorem deactIf_groupId (ids : List Nat) (q : Poll) :
    (deactIf ids q).groupId = q.groupId := by
  unfold deactIf
  split <;> rfl

theorem deactIf_active_imp (ids : List Nat) (q : Poll)
    (h : (deactIf ids q).active = true) : q.active = true := by
  unfold deactIf at h
  split at h
  · exact absurd h (by simp)
  · exact h

theorem deactIf_step (p : Poll) (ids : List Nat) (q : Poll) :
    deactIf ids (if q.id == p.id then { q with active := false } else q) =
      deactIf (p.id :: ids) q := by
  by_cases hq : q.id = p.id
  · rw [if_pos (beq_iff_eq.mpr hq)]
    unfold deactIf
    rw [if_pos (show q.id ∈ p.id :: ids by simp [hq])]
    by_cases hm : ({ q with active := false } : Poll).id ∈ ids
    · rw [if_pos hm]
    · rw [if_neg hm]
  · rw [if_neg (by simpa using hq)]
    unfold deactIf
    by_cases hm : q.id ∈ ids
    · rw [if_pos hm, if_pos (List.mem_cons_of_mem _ hm)]
    · rw [if_neg hm, if_neg (by simp [hq, hm])]

/-! Run lemmas over a constructor-shaped world with an exhausted oracle:
everything reduces definitionally there. -/

theorem dbListPolls_mk (q : Poll → Bool) (s : Store) (si : List (String × Item))
    (sr : List (String × List Item)) :
    dbListPolls q ⟨s, si, sr, []⟩ = (.ok (s.polls.filter q), ⟨s, si, sr, []⟩) := rfl

theorem dbUpdatePoll_mk (pid : Nat) (f : Poll → Poll) (s : Store)
    (si : List (String × Item)) (sr : List (String × List Item)) :
    dbUpdatePoll pid f ⟨s, si, sr, []⟩ =
      (.ok (),
       ⟨{ s with polls := s.polls.map fun p => if p.id == pid then f p else p }, si, sr, []⟩) := rfl

theorem dbCreatePoll_mk (mk : Nat → Poll) (s : Store) (si : List (String × Item))
    (sr : List (String × List Item)) :
    dbCreatePoll mk ⟨s, si, sr, []⟩ =
      (.ok (mk s.nextId),
       ⟨{ s with polls := s.polls ++ [mk s.nextId], nextId := s.nextId + 1 }, si, sr, []⟩) := rfl

theorem dbGetPoll_mk_some {pid : Nat} {s : Store} {p : Poll}
    (si : List (String × Item)) (sr : List (String × List Item))
    (hf : s.polls.find? (fun q => q.id == pid) = some p) :
    dbGetPoll pid ⟨s, si, sr, []⟩ = (.ok p, ⟨s, si, sr, []⟩) := by
  unfold dbGetPoll withTick
  dsimp only
  rw [hf]

theorem dbGetPoll_mk_none {pid : Nat} {s : Store}
    (si : List (String × Item)) (sr : List (String × List Item))
    (hf : s.polls.find? (fun q => q.id == pid) = none) :
    dbGetPoll pid ⟨s, si, sr, []⟩ = (.error .notFound, ⟨s, si, sr, []⟩) := by
  unfold dbGetPoll withTick
  dsimp only
  rw [hf]

theorem dbListVotes_mk (q : Vote → Bool) (s : Store) (si : List (String × Item))
    (sr : List (String × List Item)) :
    dbListVotes q ⟨s, si, sr, []⟩ = (.ok (s.votes.filter q), ⟨s, si, sr, []⟩) := rfl

theorem dbCreateVote_mk (pollId : Nat) (userId choice : String) (s : Store)
    (si : List (String × Item)) (sr : List (String × List Item)) :
    dbCreateVote pollId userId choice ⟨s, si, sr, []⟩ =
      (.ok { id := s.nextId, pollId := pollId, userId := userId, choice := choice },
       ⟨{ s with
            votes := s.votes ++ [{ id := s.nextId, pollId := pollId, userId := userId, choice := choice }],
            nextId := s.nextId + 1 }, si, sr, []⟩) := rfl

theorem dbUpdateVoteChoice_mk (vid : Nat) (choice : String) (s : Store)
    (si : List (String × Item)) (sr : List (String × List Item)) :
    dbUpdateVoteChoice vid choice ⟨s, si, sr, []⟩ =
      (.ok (),
       ⟨{ s with votes := s.votes.map fun v => if v.id == vid then { v with choice := choice } else v },
        si, sr, []⟩) := rfl

theorem dbCreateMessage_mk (mk : Nat → Message) (s : Store) (si : List (String × Item))
    (sr : List (String × List Item)) :
    dbCreateMessage mk ⟨s, si, sr, []⟩ =
      (.ok (mk s.nextId),
       ⟨{ s with messages := s.messages ++ [mk s.nextId], nextId := s.nextId + 1 }, si, sr, []⟩) := rfl

theorem dbCreateNotification_mk (mk : Nat → Notification) (s : Store)
    (si : List (String × Item)) (sr : List (String × List Item)) :
    dbCreateNotification mk ⟨s, si, sr, []⟩ =
      (.ok (mk s.nextId),
       ⟨{ s with notifications := s.notifications ++ [mk s.nextId], nextId := s.nextId + 1 },
        si, sr, []⟩) := rfl

theorem deactivateEach_run (ps : List Poll) (s : Store) (si : List (String × Item))
    (sr : List (String × List Item)) :
    deactivateEach ps ⟨s, si, sr, []⟩ =
      (.ok (), ⟨{ s with polls := s.polls.map (deactIf (ps.map Poll.id)) }, si, sr, []⟩) := by
  induction ps generalizing s with
  | nil =>
    have hm : s.polls.map (deactIf (([] : List Poll).map Poll.id)) = s.polls := by
      rw [List.map_nil, mapExt _ deactIf_nil]
      simp
    show (pure () : DB Unit) _ = _
    rw [run_pure, hm]
  | cons p rest ih =>
    show (dbUpdatePoll p.id (fun q => { q with active := false }) >>= fun _ =>
      deactivateEach rest) _ = _
    rw [bind_ok (dbUpdatePoll_mk p.id _ s si sr), ih]
    dsimp only
    rw [List.map_map]
    have hfun : (deactIf (List.map Poll.id rest) ∘ fun q =>
        if q.id == p.id then { q with active := false } else q) =
        deactIf (List.map Poll.id (p :: rest)) := by
      funext q
      exact deactIf_step p (rest.map Poll.id) q
    rw [hfun]

/-- After sweeping ids that cover every active poll of `g`, group `g`
has no active poll left. -/
theorem filter_map_deactIf_nil {g : String} {ids : List Nat} {polls : List Poll}
    (hcov : ∀ q ∈ polls, q.groupId = g → q.active = true → q.id ∈ ids) :
    (polls.map (deactIf ids)).filter (fun p => p.groupId == g && p.active) = [] := by
  induction polls with
  | nil => rfl
  | cons q t ih =>
    have ht := ih (fun x hx => hcov x (List.mem_cons_of_mem _ hx))
    rw [List.map_cons, List.filter_cons]
    by_cases hid : q.id ∈ ids
    · have hcond : ((deactIf ids q).groupId == g && (deactIf ids q).active) = false := by
        unfold deactIf
        rw [if_pos hid]
        simp
      simp only [hcond, ht]
      rfl
    · have hde : deactIf ids q = q := by unfold deactIf; rw [if_neg hid]
      have hcond : (q.groupId == g && q.active) = false := by
        cases hqa : (q.groupId == g && q.active) with
        | false => rfl
        | true =>
          rw [Bool.and_eq_true, beq_iff_eq] at hqa
          exact absurd (hcov q (List.mem_cons_self q t) hqa.1 hqa.2) hid
      rw [hde]
      simp only [hcond, ht]
      rfl

/-- Mapping a per-element transformation that never makes the predicate
newly true does not increase the filtered length. -/
theorem length_filter_map_le {α : Type} (l : List α) (f : α → α) (p : α → Bool)
    (h : ∀ a ∈ l, p (f a) = true → p a = true) :
    ((l.map f).filter p).length ≤ (l.filter p).length := by
  induction l with
  | nil => simp
  | cons a t ih =>
    have ht := ih (fun x hx => h x (List.mem_cons_of_mem _ hx))
    rw [List.map_cons, List.filter_cons, List.filter_cons]
    by_cases hfa : p (f a) = true
    · rw [if_pos hfa, if_pos (h a (List.mem_cons_self a t) hfa)]
      simpa using ht
    · rw [if_neg hfa]
      by_cases hpa : p a = true
      · rw [if_pos hpa]
        exact ht.trans (Nat.le_succ _)
      · rw [if_neg hpa]
        exact ht

/-- Filtering a weaker predicate keeps at least as many elements. -/
theorem length_filter_le_of_imp {α : Type} (l : List α) (p q : α → Bool)
    (h : ∀ a ∈ l, p a = true → q a = true) :
    (l.filter p).length ≤ (l.filter q).length := by
  induction l with
  | nil => simp
  | cons a t ih =>
    have ht := ih (fun x hx => h x (List.mem_cons_of_mem _ hx))
    rw [List.filter_cons, List.filter_cons]
    by_cases hpa : p a = true
    · rw [if_pos hpa, if_pos (h a (List.mem_cons_self a t) hpa)]
      simpa using ht
    · rw [if_neg hpa]
      by_cases hqa : q a = true
      · rw [if_pos hqa]
        exact ht.trans (Nat.le_succ _)
      · rw [if_neg hqa]
        exact ht

/-- Filter and map commute when the predicate is evaluated through the
map. -/
theorem filter_map_comm {α : Type} (l : List α) (f : α → α) (p : α → Bool) :
    (l.map f).filter p = (l.filter (fun a => p (f a))).map f := by
  induction l with
  | nil => rfl
  | cons a t ih =>
    rw [List.map_cons, List.filter_cons, List.filter_cons]
    by_cases h : p (f a) = true
    · rw [if_pos h, if_pos h, List.map_cons, ih]
    · rw [if_neg h, if_neg h, ih]

/-- In a store whose poll ids are distinct, at most one poll has a given
id. -/
theorem length_filter_id_le_one (polls : List Poll) (pid : Nat)
    (hnd : (polls.map Poll.id).Nodup) :
    (polls.filter (fun q => q.id == pid)).length ≤ 1 := by
  induction polls with
  | nil => simp
  | cons q t ih =>
    rw [List.map_cons, List.nodup_cons] at hnd
    rw [List.filter_cons]
    by_cases hq : (q.id == pid) = true
    · rw [if_pos hq]
      have hnil : t.filter (fun x => x.id == pid) = [] := by
        rw [List.filter_eq_nil_iff]
        intro x hx hxp
        rw [beq_iff_eq] at hq hxp
        exact hnd.1 (List.mem_map.mpr ⟨x, hx, hxp.trans hq.symm⟩)
      rw [hnil]
      simp
    · rw [if_neg hq]
      exact (ih hnd.2).trans (by simp)

/-- Effect of a successful `createPoll` run: the group's previously
active polls are swept inactive and the new active poll is appended. -/
theorem createPoll_run (pd : PollData) (s : Store) (si : List (String × Item))
    (sr : List (String × List Item)) :
    createPoll pd ⟨s, si, sr, []⟩ =
      (.ok (newPollOf pd s.nextId),
       ⟨{ s with
          polls := s.polls.map
              (deactIf (((s.polls.filter (fun p => p.groupId == pd.groupId)).filter
                (fun p => p.active)).map Poll.id))
            ++ [newPollOf pd s.nextId],
          nextId := s.nextId + 1 }, si, sr, []⟩) := by
  show (dbListPolls (fun p => p.groupId == pd.groupId) >>= fun existing =>
    deactivateEach (existing.filter (fun p => p.active)) >>= fun _ =>
      dbCreatePoll (newPollOf pd)) _ = _
  rw [bind_ok (dbListPolls_mk _ s si sr)]
  rw [bind_ok (deactivateEach_run _ s si sr)]
  rw [dbCreatePoll_mk]

theorem head?_take1 {α : Type} (l : List α) : (l.take 1).head? = l.head? := by
  cases l <;> rfl

theorem getActivePoll_mk (g : String) (s : Store) (si : List (String × Item))
    (sr : List (String × List Item)) :
    getActivePoll g ⟨s, si, sr, []⟩ =
      (.ok (((s.polls.filter (fun p => p.groupId == g && p.active)).take 1).head?),
       ⟨s, si, sr, []⟩) := rfl

theorem getActivePoll_mk_head (g : String) (s : Store) (si : List (String × Item))
    (sr : List (String × List Item)) :
    getActivePoll g ⟨s, si, sr, []⟩ =
      (.ok ((s.polls.filter (fun p => p.groupId == g && p.active)).head?),
       ⟨s, si, sr, []⟩) := by
  rw [getActivePoll_mk, head?_take1]

theorem getPollVotes_mk (pid : Nat) (s : Store) (si : List (String × Item))
    (sr : List (String × List Item)) :
    getPollVotes pid ⟨s, si, sr, []⟩ =
      (.ok (s.votes.filter (fun v => v.pollId == pid)), ⟨s, si, sr, []⟩) := rfl

theorem getGroupPolls_mk (g : String) (s : Store) (si : List (String × Item))
    (sr : List (String × List Item)) :
    getGroupPolls g ⟨s, si, sr, []⟩ =
      (.ok (((s.polls.filter (fun p => p.groupId == g)).reverse).take 100),
       ⟨s, si, sr, []⟩) := rfl

theorem sendSystemMessage_mk (g t : String) (s : Store) (si : List (String × Item))
    (sr : List (String × List Item)) :
    sendSystemMessage g t ⟨s, si, sr, []⟩ =
      (.ok (),
       ⟨{ s with
          messages := s.messages ++
            [{ id := s.nextId, groupId := g, senderId := "planbot", senderName := "PlanBot",
               senderAvatar := "", text := t, isSystemMessage := true, pollId := none }],
          nextId := s.nextId + 1 }, si, sr, []⟩) := rfl

theorem sendPersonalNotification_mk (u t : String) (meta : Option NotifMeta) (s : Store)
    (si : List (String × Item)) (sr : List (String × List Item)) :
    sendPersonalNotification u t meta ⟨s, si, sr, []⟩ =
      (.ok (),
       ⟨{ s with
          notifications := s.notifications ++
            [{ id := s.nextId, userId := u, text := t, metadata := meta,
               read := false, ntype := "plan_confirmation" }],
          nextId := s.nextId + 1 }, si, sr, []⟩) := rfl

/-! ## Run lemmas for `castVote` -/

theorem castVote_run_update {s : Store} {P : Nat} {U : String} {v : Vote}
    (c : String) (si : List (String × Item)) (sr : List (String × List Item))
    (hv : (s.votes.filter (fun x => x.pollId == P && x.userId == U)).head? = some v) :
    castVote P U c ⟨s, si, sr, []⟩ =
      (.ok (),
       ⟨{ s with votes := s.votes.map fun x => if x.id == v.id then { x with choice := c } else x },
        si, sr, []⟩) := by
  show (dbListVotes (fun x => x.pollId == P && x.userId == U) >>= fun existing =>
    match existing.head? with
    | some v => dbUpdateVoteChoice v.id c
    | none => do
        let _ ← dbCreateVote P U c
        pure ()) _ = _
  rw [bind_ok (dbListVotes_mk _ s si sr), hv]
  rfl

theorem castVote_run_insert {s : Store} {P : Nat} {U : String}
    (c : String) (si : List (String × Item)) (sr : List (String × List Item))
    (hv : s.votes.filter (fun x => x.pollId == P && x.userId == U) = []) :
    castVote P U c ⟨s, si, sr, []⟩ =
      (.ok (),
       ⟨{ s with
          votes := s.votes ++ [{ id := s.nextId, pollId := P, userId := U, choice := c }],
          nextId := s.nextId + 1 }, si, sr, []⟩) := by
  show (dbListVotes (fun x => x.pollId == P && x.userId == U) >>= fun existing =>
    match existing.head? with
    | some v => dbUpdateVoteChoice v.id c
    | none => do
        let _ ← dbCreateVote P U c
        pure ()) _ = _
  rw [bind_ok (dbListVotes_mk _ s si sr), hv]
  rfl

/-! ## Run lemmas for `activatePoll` -/

theorem activatePoll_run_notFound {s : Store} {pollId : Nat} (userId : String)
    (si : List (String × Item)) (sr : List (String × List Item))
    (hf : s.polls.find? (fun q => q.id == pollId) = none) :
    activatePoll pollId userId ⟨s, si, sr, []⟩ = (.error .notFound, ⟨s, si, sr, []⟩) := by
  show (dbGetPoll pollId >>= fun poll =>
    if poll.creatorId ≠ userId then dbThrow .permission
    else do
      let existing ← dbListPolls (fun p => p.groupId == poll.groupId && p.active)
      deactivateEach (existing.filter (fun p => p.id != pollId))
      dbUpdatePoll pollId (fun q => { q with active := true })) _ = _
  rw [bind_err (dbGetPoll_mk_none si sr hf)]

theorem activatePoll_run_perm {s : Store} {pollId : Nat} {userId : String} {poll : Poll}
    (si : List (String × Item)) (sr : List (String × List Item))
    (hf : s.polls.find? (fun q => q.id == pollId) = some poll)
    (hperm : poll.creatorId ≠ userId) :
    activatePoll pollId userId ⟨s, si, sr, []⟩ = (.error .permission, ⟨s, si, sr, []⟩) := by
  show (dbGetPoll pollId >>= fun poll =>
    if poll.creatorId ≠ userId then dbThrow .permission
    else do
      let existing ← dbListPolls (fun p => p.groupId == poll.groupId && p.active)
      deactivateEach (existing.filter (fun p => p.id != pollId))
      dbUpdatePoll pollId (fun q => { q with active := true })) _ = _
  rw [bind_ok (dbGetPoll_mk_some si sr hf), if_pos hperm]
  rfl

theorem activatePoll_run_ok {s : Store} {pollId : Nat} {userId : String} {poll : Poll}
    (si : List (String × Item)) (sr : List (String × List Item))
    (hf : s.polls.find? (fun q => q.id == pollId) = some poll)
    (hperm : poll.creatorId = userId) :
    activatePoll pollId userId ⟨s, si, sr, []⟩ =
      (.ok (),
       ⟨{ s with
          polls := (s.polls.map
              (deactIf (((s.polls.filter (fun p => p.groupId == poll.groupId && p.active)).filter
                (fun p => p.id != pollId)).map Poll.id))).map
            fun q => if q.id == pollId then { q with active := true } else q }, si, sr, []⟩) := by
  show (dbGetPoll pollId >>= fun poll =>
    if poll.creatorId ≠ userId then dbThrow .permission
    else do
      let existing ← dbListPolls (fun p => p.groupId == poll.groupId && p.active)
      deactivateEach (existing.filter (fun p => p.id != pollId))
      dbUpdatePoll pollId (fun q => { q with active := true })) _ = _
  rw [bind_ok (dbGetPoll_mk_some si sr hf), if_neg (fun hne => hne hperm)]
  rw [bind_ok (dbListPolls_mk _ s si sr)]
  rw [bind_ok (deactivateEach_run _ s si sr)]
  rw [dbUpdatePoll_mk]

/-! ## Run lemma for the notification loop and `lockDecision` -/

theorem notifyEach_run (text : String) (meta : NotifMeta) (vs : List Vote) (s : Store)
    (si : List (String × Item)) (sr : List (String × List Item)) :
    ∃ s2, notifyEach text meta vs ⟨s, si, sr, []⟩ = (.ok (), ⟨s2, si, sr, []⟩) ∧
      s2.polls = s.polls ∧
      s2.notifications.map Notification.userId =
        s.notifications.map Notification.userId ++ vs.map Vote.userId := by
  induction vs generalizing s with
  | nil =>
    refine ⟨s, ?_, rfl, by simp⟩
    show (pure () : DB Unit) _ = _
    rfl
  | cons v rest ih =>
    obtain ⟨s2, hrun, hpolls, hnot⟩ := ih
      { s with
        notifications := s.notifications ++
          [{ id := s.nextId, userId := v.userId, text := text, metadata := some meta,
             read := false, ntype := "plan_confirmation" }],
        nextId := s.nextId + 1 }
    refine ⟨s2, ?_, hpolls, ?_⟩
    · show (sendPersonalNotification v.userId text (some meta) >>= fun _ =>
        notifyEach text meta rest) _ = _
      rw [bind_ok (sendPersonalNotification_mk v.userId text (some meta) s si sr)]
      exact hrun
    · rw [hnot]
      simp

/-- Effect of `/lock` when the group has an active poll `p` (the head
of the active filter): `p` is deactivated and one notification per
`join` vote on `p` is appended, in vote order. -/
theorem lockDecision_run (g : String) (gname : Option String) {s : Store} {p : Poll}
    (si : List (String × Item)) (sr : List (String × List Item))
    (hp : (s.polls.filter (fun q => q.groupId == g && q.active)).head? = some p) :
    ∃ s2, lockDecision g gname ⟨s, si, sr, []⟩ = (.ok (), ⟨s2, si, sr, []⟩) ∧
      s2.polls = s.polls.map (fun q => if q.id == p.id then { q with active := false } else q) ∧
      s2.notifications.map Notification.userId =
        s.notifications.map Notification.userId ++
          ((s.votes.filter (fun v => v.pollId == p.id)).filter
            (fun v => v.choice == "join")).map Vote.userId := by
  have hga : getActivePoll g ⟨s, si, sr, []⟩ = (.ok (some p), ⟨s, si, sr, []⟩) := by
    rw [getActivePoll_mk_head g s si sr, hp]
  obtain ⟨s2, hrun, hpolls, hnot⟩ :=
    notifyEach_run
      (lockNotifText p gname ((s.votes.filter (fun v => v.pollId == p.id)).filter
        (fun v => v.choice == "join")).length)
      { groupId := g, groupName := gname, pollId := p.id, place := p.title,
        address := p.description, date := p.metadata.date, time := p.metadata.time,
        attendees := ((s.votes.filter (fun v => v.pollId == p.id)).filter
          (fun v => v.choice == "join")).length,
        itemType := p.ptype }
      ((s.votes.filter (fun v => v.pollId == p.id)).filter (fun v => v.choice == "join"))
      { s with
        polls := s.polls.map (fun q => if q.id == p.id then { q with active := false } else q),
        messages := s.messages ++
          [{ id := s.nextId, groupId := g, senderId := "planbot", senderName := "PlanBot",
             senderAvatar := "",
             text := lockSummaryText p
               ((s.votes.filter (fun v => v.pollId == p.id)).filter (fun v => v.choice == "join"))
               ((s.votes.filter (fun v => v.pollId == p.id)).filter (fun v => v.choice == "maybe")),
             isSystemMessage := true, pollId := none }],
        nextId := s.nextId + 1 }
      si sr
  refine ⟨s2, ?_, hpolls, hnot⟩
  unfold lockDecision
  rw [bind_ok hga]
  dsimp only
  rw [bind_ok (getPollVotes_mk p.id s si sr)]
  rw [bind_ok (dbUpdatePoll_mk p.id _ s si sr)]
  rw [bind_ok (sendSystemMessage_mk g _ _ si sr)]
  exact hrun

/-! ## Every PlanBot handler succeeds when the gateway does -/

theorem allOk_sendSystemMessage (g t : String) : allOk (sendSystemMessage g t) :=
  allOk_bind (allOk_dbCreateMessage _) (fun _ => allOk_pure _)

theorem allOk_sendPersonalNotification (u t : String) (meta : Option NotifMeta) :
    allOk (sendPersonalNotification u t meta) :=
  allOk_attempt (allOk_bind (allOk_dbCreateNotification _)
    (fun _ => allOk_pure _)).toFuelPres (allOk_pure _)

theorem allOk_help (g : String) : allOk (help g) :=
  allOk_sendSystemMessage _ _

theorem allOk_getUserGenres (u : String) : allOk (getUserGenres u) := by
  unfold getUserGenres
  refine allOk_attempt ?_ (allOk_pure _)
  refine (allOk_bind (allOk_dbListUsers _) fun docs => ?_).toFuelPres
  cases docs.head? with
  | some usr => exact allOk_pure _
  | none => exact allOk_pure _

theorem allOk_getActivePoll (g : String) : allOk (getActivePoll g) := by
  unfold getActivePoll
  exact allOk_attempt (allOk_bind (allOk_dbListPolls _)
    fun _ => allOk_pure _).toFuelPres (allOk_pure _)

theorem allOk_getPollVotes (pid : Nat) : allOk (getPollVotes pid) := by
  unfold getPollVotes
  exact allOk_attempt (allOk_bind (allOk_dbListVotes _)
    fun _ => allOk_pure _).toFuelPres (allOk_pure _)

theorem allOk_getGroupPolls (g : String) : allOk (getGroupPolls g) := by
  unfold getGroupPolls
  exact allOk_attempt (allOk_bind (allOk_dbListPolls _)
    fun _ => allOk_pure _).toFuelPres (allOk_pure _)

theorem allOk_deactivateEach (ps : List Poll) : allOk (deactivateEach ps) := by
  induction ps with
  | nil => exact allOk_pure _
  | cons p rest ih => exact allOk_bind (allOk_dbUpdatePoll _ _) fun _ => ih

theorem allOk_notifyEach (text : String) (meta : NotifMeta) (vs : List Vote) :
    allOk (notifyEach text meta vs) := by
  induction vs with
  | nil => exact allOk_pure _
  | cons v rest ih => exact allOk_bind (allOk_sendPersonalNotification _ _ _) fun _ => ih

theorem allOk_suggestOutings (sp : String → String → List PlaceResult)
    (g : String) (args : List String) : allOk (suggestOutings sp g args) := by
  match args with
  | [] => exact allOk_sendSystemMessage _ _
  | [a] => exact allOk_sendSystemMessage _ _
  | area :: city :: rest =>
    refine allOk_bind (allOk_sendSystemMessage _ _) fun _ => ?_
    refine allOk_attempt ?_ (allOk_sendSystemMessage _ _)
    refine fuelPres_ite (allOk_sendSystemMessage _ _).toFuelPres ?_
    exact fuelPres_bind (allOk_sendSystemMessage _ _).toFuelPres
      fun _ => (allOk_setSearchResults _ _).toFuelPres

theorem allOk_suggestMovies (sm : List String → Except Err (List MovieResult))
    (g uid uname : String) : allOk (suggestMovies sm g uid uname) := by
  unfold suggestMovies
  refine allOk_bind (allOk_sendSystemMessage _ _) fun _ => ?_
  refine allOk_attempt ?_ (allOk_sendSystemMessage _ _)
  refine fuelPres_bind (allOk_getUserGenres _).toFuelPres fun gs => ?_
  refine fuelPres_ite (allOk_sendSystemMessage _ _).toFuelPres ?_
  refine fuelPres_bind ?_ fun movies => ?_
  · cases sm gs with
    | ok ms => exact fuelPres_pure _
    | error e => exact fuelPres_throw _
  · exact fuelPres_ite (allOk_sendSystemMessage _ _).toFuelPres
      (fuelPres_bind (allOk_sendSystemMessage _ _).toFuelPres
        fun _ => (allOk_setSearchResults _ _).toFuelPres)

theorem allOk_selectItem (g : String) (args : List String) : allOk (selectItem g args) := by
  unfold selectItem
  refine allOk_ite (allOk_sendSystemMessage _ _) ?_
  refine allOk_bind (allOk_getSearchResults _) fun r? => ?_
  split
  · exact allOk_sendSystemMessage _ _
  · exact allOk_sendSystemMessage _ _
  · split
    all_goals dsimp only
    all_goals split
    all_goals
      first
        | exact allOk_sendSystemMessage _ _
        | exact allOk_bind (allOk_setSelectedItem _ _) fun _ => allOk_sendSystemMessage _ _

theorem allOk_attachWhen (g : String) (args : List String) (u : UserCtx) :
    allOk (attachWhen g args u) := by
  unfold attachWhen
  refine allOk_bind (allOk_getSelectedItem _) fun sel? => ?_
  split
  · exact allOk_sendSystemMessage _ _
  · dsimp only
    split
    · exact allOk_sendSystemMessage _ _
    · split
      · exact allOk_sendSystemMessage _ _
      · refine allOk_attempt ?_ (allOk_sendSystemMessage _ _)
        refine fuelPres_bind (allOk_dbListPolls _).toFuelPres fun ex => ?_
        refine fuelPres_bind (allOk_deactivateEach _).toFuelPres fun _ => ?_
        refine fuelPres_bind (allOk_dbCreatePoll _).toFuelPres fun np => ?_
        refine fuelPres_bind (allOk_dbCreateMessage _).toFuelPres fun _ => ?_
        refine fuelPres_bind (allOk_sendSystemMessage _ _).toFuelPres fun _ => ?_
        exact fuelPres_bind (allOk_delSelectedItem _).toFuelPres
          fun _ => (allOk_delSearchResults _).toFuelPres

theorem allOk_rsvpSummary (g : String) : allOk (rsvpSummary g) := by
  unfold rsvpSummary
  refine allOk_bind (allOk_getActivePoll _) fun a? => ?_
  split
  · exact allOk_sendSystemMessage _ _
  · exact allOk_bind (allOk_getPollVotes _) fun votes => allOk_sendSystemMessage _ _

theorem allOk_lockDecision (g : String) (gname : Option String) :
    allOk (lockDecision g gname) := by
  unfold lockDecision
  refine allOk_bind (allOk_getActivePoll _) fun a? => ?_
  split
  · exact allOk_sendSystemMessage _ _
  · refine allOk_bind (allOk_getPollVotes _) fun votes => ?_
    refine allOk_bind (allOk_dbUpdatePoll _ _) fun _ => ?_
    exact allOk_bind (allOk_sendSystemMessage _ _) fun _ => allOk_notifyEach _ _ _

theorem allOk_handlePlanbotCommand (sp : String → String → List PlaceResult)
    (sm : List String → Except Err (List MovieResult))
    (input : String) (ctx : PlanbotContext) :
    allOk (handlePlanbotCommand sp sm input ctx) := by
  unfold handlePlanbotCommand
  refine allOk_ite (allOk_pure _) ?_
  refine allOk_ite (allOk_bind (allOk_help _) fun _ => allOk_pure _) ?_
  refine allOk_ite (allOk_bind (allOk_suggestOutings _ _ _) fun _ => allOk_pure _) ?_
  refine allOk_ite (allOk_bind (allOk_suggestMovies _ _ _ _) fun _ => allOk_pure _) ?_
  refine allOk_ite (allOk_bind (allOk_selectItem _ _) fun _ => allOk_pure _) ?_
  refine allOk_ite (allOk_bind (allOk_attachWhen _ _ _) fun _ => allOk_pure _) ?_
  refine allOk_ite (allOk_bind (allOk_rsvpSummary _) fun _ => allOk_pure _) ?_
  refine allOk_ite (allOk_bind (allOk_lockDecision _ _) fun _ => allOk_pure _) ?_
  exact allOk_bind (allOk_sendSystemMessage _ _) fun _ => allOk_pure _

/-! ## Generic list helpers for the claim proofs -/

theorem optOr_none {α : Type} (x : Option α) : optOr x none = x := by
  cases x <;> rfl

theorem filterExt {α : Type} (l : List α) {p q : α → Bool} (h : ∀ a, p a = q a) :
    l.filter p = l.filter q := by
  induction l with
  | nil => rfl
  | cons a t ih => rw [List.filter_cons, List.filter_cons, h a, ih]

theorem filter_filter' {α : Type} (l : List α) (p q : α → Bool) :
    (l.filter p).filter q = l.filter (fun a => p a && q a) := by
  induction l with
  | nil => rfl
  | cons a t ih =>
    rw [List.filter_cons, List.filter_cons]
    by_cases hp : p a = true
    · rw [if_pos hp, List.filter_cons, ih, hp, Bool.true_and]
    · rw [if_neg hp, ih]
      have : (p a && q a) = false := by
        cases hpa : p a with
        | true => exact absurd hpa hp
        | false => rfl
      rw [if_neg (by rw [this]; exact Bool.false_ne_true)]

theorem length_filter_map_eq {α β : Type} (l : List α) (f : α → β) (p : β → Bool) :
    ((l.map f).filter p).length = (l.filter (fun a => p (f a))).length := by
  induction l with
  | nil => rfl
  | cons a t ih =>
    rw [List.map_cons, List.filter_cons, List.filter_cons]
    by_cases hp : p (f a) = true
    · rw [if_pos hp, if_pos hp, List.length_cons, List.length_cons, ih]
    · rw [if_neg hp, if_neg hp, ih]

theorem getLast?_cons {α : Type} (a : α) (l : List α) :
    (a :: l).getLast? = optOr l.getLast? (some a) := by
  induction l generalizing a with
  | nil => rfl
  | cons b t ih =>
    rw [List.getLast?_cons_cons, ih b]
    cases t.getLast? <;> rfl

/-! ## Claim C10: read helpers swallow persistence failures -/

/-- C10: on a storage-layer failure (the next gateway call is injected
to fail), `getActivePoll` returns `none` and `getGroupPolls` /
`getPollVotes` return `[]`, with the store untouched — at the call site
a storage failure is indistinguishable from an absent active poll or an
empty poll/vote set. -/
theorem c10_read_helpers_swallow_failures (w : World) (fs : List Bool)
    (g : String) (pid : Nat) (hw : w.fuel = false :: fs) :
    getActivePoll g w = (.ok none, { w with fuel := fs }) ∧
    getGroupPolls g w = (.ok [], { w with fuel := fs }) ∧
    getPollVotes pid w = (.ok [], { w with fuel := fs }) := by
  have hpolls : ∀ q : Poll → Bool,
      dbListPolls q w = (.error .persistence, { w with fuel := fs }) := by
    intro q
    unfold dbListPolls
    exact withTick_false hw
  have hvotes : ∀ q : Vote → Bool,
      dbListVotes q w = (.error .persistence, { w with fuel := fs }) := by
    intro q
    unfold dbListVotes
    exact withTick_false hw
  refine ⟨?_, ?_, ?_⟩
  · unfold getActivePoll
    rw [attempt_err (bind_err (hpolls _))]
    rfl
  · unfold getGroupPolls
    rw [attempt_err (bind_err (hpolls _))]
    rfl
  · unfold getPollVotes
    rw [attempt_err (bind_err (hvotes _))]
    rfl

/-- Closed instance of the C10 theorem at a concrete failing world. -/
theorem c10_read_helpers_swallow_failures_witness :
    getActivePoll "g" { store := {}, fuel := [false] } =
      (.ok none, { store := {}, fuel := [] }) ∧
    getGroupPolls "g" { store := {}, fuel := [false] } =
      (.ok [], { store := {}, fuel := [] }) ∧
    getPollVotes 0 { store := {}, fuel := [false] } =
      (.ok [], { store := {}, fuel := [] }) :=
  c10_read_helpers_swallow_failures { store := {}, fuel := [false] } [] "g" 0 rfl

/-! ## Claim C9: which subscription handlers filter by group -/

/-- C9 counterexample: a vote create event whose payload belongs to
group `g2` (its poll's group) is applied unconditionally to the state
of a subscriber attached with filter `g1`; the claim says it must not
be applied. -/
theorem c9_counterexample :
    applyVoteSub "g1" EvOp.create { id := 10, pollId := 5, userId := "u", choice := "join" } [] =
      [{ id := 10, pollId := 5, userId := "u", choice := "join" }] ∧
    voteGroup
      { polls := [{ id := 5, groupId := "g2", creatorId := "c", creatorName := "C",
                    ptype := "place", externalId := "x", title := "T", description := "",
                    image := "", active := true }] }
      { id := 10, pollId := 5, userId := "u", choice := "join" } = some "g2" ∧
    "g2" ≠ "g1" := by
  refine ⟨rfl, rfl, by decide⟩

/-- C9 amended: the message and poll subscription handlers apply only
events whose payload carries the subscriber's group; the vote handler
ignores the subscriber's group entirely and applies every create and
update event; the reaction handler also ignores the subscriber's group
and applies every create event, while reaction update events are not
handled at all and leave the subscriber's state unchanged. -/
theorem c9_subscription_group_filtering :
    (∀ (g : String) (op : EvOp) (m : Message) (st : List Message),
        m.groupId ≠ g → applyMessageSub g op m st = st) ∧
    (∀ (g : String) (op : EvOp) (p : Poll) (st : List Poll),
        p.groupId ≠ g → applyPollSub g op p st = st) ∧
    (∀ (g g2 : String) (op : EvOp) (v : Vote) (st : List Vote),
        applyVoteSub g op v st = applyVoteSub g2 op v st) ∧
    (∀ (g : String) (v : Vote) (st : List Vote),
        applyVoteSub g EvOp.create v st = st ++ [v]) ∧
    (∀ (g g2 : String) (op : EvOp) (r : Reaction) (st : List Reaction),
        applyReactionSub g op r st = applyReactionSub g2 op r st) ∧
    (∀ (g : String) (r : Reaction) (st : List Reaction),
        applyReactionSub g EvOp.create r st = st ++ [r]) ∧
    (∀ (g : String) (r : Reaction) (st : List Reaction),
        applyReactionSub g EvOp.update r st = st) := by
  refine ⟨?_, ?_, fun _ _ _ _ _ => rfl, fun _ _ _ => rfl, fun _ _ _ _ _ => rfl,
    fun _ _ _ => rfl, fun _ _ _ => rfl⟩
  · intro g op m st h
    unfold applyMessageSub
    rw [if_neg (by simpa using h)]
  · intro g op p st h
    unfold applyPollSub
    rw [if_neg (by simpa using h)]

/-- Closed instance of the C9 theorem at concrete inputs. -/
theorem c9_subscription_group_filtering_witness :
    applyMessageSub "a" EvOp.create
      { id := 0, groupId := "b", senderId := "s", senderName := "S",
        senderAvatar := "", text := "t" } [] = [] ∧
    applyVoteSub "a" EvOp.create { id := 1, pollId := 2, userId := "u", choice := "no" } [] =
      [{ id := 1, pollId := 2, userId := "u", choice := "no" }] :=
  ⟨c9_subscription_group_filtering.1 "a" EvOp.create
      { id := 0, groupId := "b", senderId := "s", senderName := "S",
        senderAvatar := "", text := "t" } [] (by decide),
   c9_subscription_group_filtering.2.2.2.1 "a"
      { id := 1, pollId := 2, userId := "u", choice := "no" } []⟩

/-! ## Claim C7: date/time token recognition in `parseDateTime` -/

/-- C7 counterexample: with two date tokens, the token used is the last
matching one, not the first: the claim says the first match wins. -/
theorem c7_counterexample :
    parseDateTime ["2025-01-01", "2025-02-02"] =
      { date := some "2025-02-02", time := none } ∧
    isDateTok "2025-01-01" = true ∧
    ("2025-01-01" : String) ≠ "2025-02-02" := by
  refine ⟨by decide, by decide, by decide⟩

theorem parseDateTime_foldl (args : List String) (st : DateTimeArgs) :
    args.foldl
      (fun st a =>
        { date := if isDateTok a then some a else st.date,
          time := if isTimeTok a then some (lowerStr a) else st.time })
      st =
    { date := optOr (args.filter isDateTok).getLast? st.date,
      time := optOr ((args.filter isTimeTok).map lowerStr).getLast? st.time } := by
  induction args generalizing st with
  | nil => rfl
  | cons a t ih =>
    rw [List.foldl_cons, ih]
    have hdate :
        optOr (List.filter isDateTok (a :: t)).getLast?
            ((⟨st.date, st.time⟩ : DateTimeArgs).date) =
          optOr (t.filter isDateTok).getLast? (if isDateTok a then some a else st.date) := by
      by_cases hd : isDateTok a = true
      · rw [if_pos hd, List.filter_cons, if_pos hd, getLast?_cons]
        cases (t.filter isDateTok).getLast? <;> rfl
      · rw [if_neg hd, List.filter_cons, if_neg hd]
    have htime :
        optOr ((List.filter isTimeTok (a :: t)).map lowerStr).getLast?
            ((⟨st.date, st.time⟩ : DateTimeArgs).time) =
          optOr ((t.filter isTimeTok).map lowerStr).getLast?
            (if isTimeTok a then some (lowerStr a) else st.time) := by
      by_cases hd : isTimeTok a = true
      · rw [if_pos hd, List.filter_cons, if_pos hd, List.map_cons, getLast?_cons]
        cases ((t.filter isTimeTok).map lowerStr).getLast? <;> rfl
      · rw [if_neg hd, List.filter_cons, if_neg hd]
    rw [← hdate, ← htime]

/-- C7 amended: `parseDateTime` recognizes a date token and a time
token anywhere in the argument list, in any order; when several tokens
match the same pattern the LAST matching token wins (each match
overwrites the previous one), and the time token is stored
lowercased. -/
theorem c7_parseDateTime_any_order_last_wins (args : List String) :
    parseDateTime args =
      { date := (args.filter isDateTok).getLast?,
        time := ((args.filter isTimeTok).map lowerStr).getLast? } := by
  unfold parseDateTime
  rw [parseDateTime_foldl]
  rw [show (({} : DateTimeArgs) : DateTimeArgs).date = none from rfl,
    show (({} : DateTimeArgs) : DateTimeArgs).time = none from rfl,
    optOr_none, optOr_none]

/-! ## Claim C3: `createPoll` and input validation -/

/-- C3 counterexample: `createPoll` succeeds and inserts the poll even
for a draft with an empty title or an out-of-range type string; no
`ValidationError` exists in the code. -/
theorem c3_counterexample :
    createPoll
        { groupId := "g", creatorId := "u", creatorName := "U", ptype := "place",
          externalId := "x", title := "" }
        { store := {} } =
      (.ok { id := 0, groupId := "g", creatorId := "u", creatorName := "U", ptype := "place",
             externalId := "x", title := "", description := "", image := "",
             choices := ["join", "maybe", "no"], active := true, metadata := {} },
       { store := { polls := [{ id := 0, groupId := "g", creatorId := "u", creatorName := "U",
                                ptype := "place", externalId := "x", title := "",
                                description := "", image := "",
                                choices := ["join", "maybe", "no"], active := true,
                                metadata := {} }],
                    nextId := 1 } }) ∧
    createPoll
        { groupId := "g", creatorId := "u", creatorName := "U", ptype := "pizza",
          externalId := "x", title := "T" }
        { store := {} } =
      (.ok { id := 0, groupId := "g", creatorId := "u", creatorName := "U", ptype := "pizza",
             externalId := "x", title := "T", description := "", image := "",
             choices := ["join", "maybe", "no"], active := true, metadata := {} },
       { store := { polls := [{ id := 0, groupId := "g", creatorId := "u", creatorName := "U",
                                ptype := "pizza", externalId := "x", title := "T",
                                description := "", image := "",
                                choices := ["join", "maybe", "no"], active := true,
                                metadata := {} }],
                    nextId := 1 } }) := by
  refine ⟨by decide, by decide⟩

/-- C3 amended: `createPoll` performs no runtime validation at all: for
every draft — including an empty title or any type string (the
`movie`/`place` restriction is only a static TypeScript annotation) —
it succeeds when storage succeeds, inserting the draft's data verbatim
as the new active poll. -/
theorem c3_createPoll_no_validation (pd : PollData) (s : Store)
    (si : List (String × Item)) (sr : List (String × List Item)) :
    ∃ p w2, createPoll pd ⟨s, si, sr, []⟩ = (.ok p, w2) ∧
      p.title = pd.title ∧ p.ptype = pd.ptype ∧ p.active = true ∧
      p ∈ w2.store.polls := by
  refine ⟨newPollOf pd s.nextId, _, createPoll_run pd s si sr, rfl, rfl, rfl, ?_⟩
  simp

/-! ## Claim C4: `getActivePoll` and the defensive tie-break -/

/-- C4 counterexample: with two active polls in the group (invariant
violated), `getActivePoll` returns the EARLIEST-created one
(`documents[0]` of an unordered `limit(1)` listing), not the
most-recently-created one the claim requires; nothing is logged. -/
theorem c4_counterexample :
    getActivePoll "g" { store := { polls := [c4PollOld, c4PollNew], nextId := 2 } } =
      (.ok (some c4PollOld),
       { store := { polls := [c4PollOld, c4PollNew], nextId := 2 } }) ∧
    c4PollNew.active = true ∧ c4PollNew.groupId = "g" ∧ c4PollOld.id < c4PollNew.id := by
  refine ⟨by decide, by decide, by decide, by decide⟩

/-- C4 amended: `getActivePoll` returns the head of the group's active
filter in listing (creation) order — the unique active poll when the
invariant holds, `none` when there is none, and, when several are
active, the EARLIEST-created one (minimal id) rather than failing. -/
theorem c4_getActivePoll_earliest (s : Store) (si : List (String × Item))
    (sr : List (String × List Item)) (g : String)
    (hsorted : s.polls.Pairwise (fun a b => a.id < b.id)) :
    getActivePoll g ⟨s, si, sr, []⟩ =
      (.ok ((s.polls.filter (fun p => p.groupId == g && p.active)).head?),
       ⟨s, si, sr, []⟩) ∧
    (∀ p, (s.polls.filter (fun p => p.groupId == g && p.active)).head? = some p →
      p.groupId = g ∧ p.active = true ∧
        ∀ q ∈ s.polls, q.groupId = g → q.active = true → p.id ≤ q.id) := by
  refine ⟨getActivePoll_mk_head g s si sr, ?_⟩
  intro p hp
  obtain ⟨t, ht⟩ : ∃ t, s.polls.filter (fun p => p.groupId == g && p.active) = p :: t := by
    cases hfl : s.polls.filter (fun p => p.groupId == g && p.active) with
    | nil => rw [hfl] at hp; cases hp
    | cons x t =>
      rw [hfl] at hp
      exact ⟨t, by rw [show x = p from by injection hp]⟩
  have hmem : p ∈ s.polls.filter (fun p => p.groupId == g && p.active) := by
    rw [ht]; exact List.mem_cons_self p t
  have hmem2 := List.mem_filter.mp hmem
  have hcond := hmem2.2
  rw [Bool.and_eq_true, beq_iff_eq] at hcond
  refine ⟨hcond.1, hcond.2, ?_⟩
  intro q hq hqg hqa
  have hqf : q ∈ s.polls.filter (fun p => p.groupId == g && p.active) :=
    List.mem_filter.mpr ⟨hq, by rw [Bool.and_eq_true, beq_iff_eq]; exact ⟨hqg, hqa⟩⟩
  have hpw : (s.polls.filter (fun p => p.groupId == g && p.active)).Pairwise
      (fun a b => a.id < b.id) :=
    hsorted.sublist (List.filter_sublist _)
  rw [ht] at hpw hqf
  rcases List.mem_cons.mp hqf with hqp | hqt
  · rw [hqp]
  · exact Nat.le_of_lt ((List.pairwise_cons.mp hpw).1 q hqt)

/-- Closed instance of the C4 theorem: a store with a single active
poll, where `getActivePoll` returns exactly it. -/
theorem c4_getActivePoll_earliest_witness :
    getActivePoll "g" { store := { polls := [c4PollOld], nextId := 1 } } =
      (.ok (some c4PollOld), { store := { polls := [c4PollOld], nextId := 1 } }) := by
  have h := (c4_getActivePoll_earliest { polls := [c4PollOld], nextId := 1 } [] [] "g"
    (by simp)).1
  rw [h]
  decide

/-! ## Claim C5: create-then-read round-trip -/

/-- C5: a successful `createPoll` for a group, immediately followed by
`getActivePoll` on that group with no interleaved operation, returns
exactly the poll just inserted. -/
theorem c5_createPoll_getActivePoll_roundtrip (pd : PollData) (s : Store)
    (si : List (String × Item)) (sr : List (String × List Item)) :
    ∃ p w2, createPoll pd ⟨s, si, sr, []⟩ = (.ok p, w2) ∧
      getActivePoll pd.groupId w2 = (.ok (some p), w2) := by
  refine ⟨newPollOf pd s.nextId, _, createPoll_run pd s si sr, ?_⟩
  rw [getActivePoll_mk_head]
  have hcov : ∀ q ∈ s.polls, q.groupId = pd.groupId → q.active = true →
      q.id ∈ (((s.polls.filter (fun p => p.groupId == pd.groupId)).filter
        (fun p => p.active)).map Poll.id) := by
    intro q hq hg ha
    exact List.mem_map.mpr
      ⟨q, List.mem_filter.mpr
        ⟨List.mem_filter.mpr ⟨hq, beq_iff_eq.mpr hg⟩, ha⟩, rfl⟩
  have hfil :
      ((s.polls.map (deactIf (((s.polls.filter (fun p => p.groupId == pd.groupId)).filter
          (fun p => p.active)).map Poll.id))
        ++ [newPollOf pd s.nextId]).filter
          (fun p => p.groupId == pd.groupId && p.active)) = [newPollOf pd s.nextId] := by
    rw [List.filter_append, filter_map_deactIf_nil hcov]
    rw [List.filter_cons]
    rw [if_pos (show ((newPollOf pd s.nextId).groupId == pd.groupId &&
      (newPollOf pd s.nextId).active) = true by simp [newPollOf])]
    rfl
  rw [show ({ s with
        polls := s.polls.map
            (deactIf (((s.polls.filter (fun p => p.groupId == pd.groupId)).filter
              (fun p => p.active)).map Poll.id))
          ++ [newPollOf pd s.nextId],
        nextId := s.nextId + 1 } : Store).polls = s.polls.map
            (deactIf (((s.polls.filter (fun p => p.groupId == pd.groupId)).filter
              (fun p => p.active)).map Poll.id))
          ++ [newPollOf pd s.nextId] from rfl, hfil]
  rfl

/-! ## Claim C2: `castVote` upsert and idempotence -/

theorem voteUpd_keeps_key (P : Nat) (U : String) (vid : Nat) (c : String) (x : Vote) :
    (((if x.id == vid then { x with choice := c } else x) : Vote).pollId == P &&
      ((if x.id == vid then { x with choice := c } else x) : Vote).userId == U) =
    (x.pollId == P && x.userId == U) := by
  by_cases hx : (x.id == vid) = true
  · rw [if_pos hx]
  · rw [if_neg hx]

/-- C2: if a vote by `U` on `P` exists, `castVote` updates that vote's
choice in place (no record is inserted, the vote count is unchanged,
and the first `(P,U)` vote now carries the new choice); consequently,
from a state with no `(P,U)` vote, casting `join` twice in a row
leaves exactly one `(P,U)` vote record, and its choice is `join`. -/
theorem c2_castVote_upsert_idempotent (s : Store) (si : List (String × Item))
    (sr : List (String × List Item)) (P : Nat) (U c : String) :
    (∀ v, (s.votes.filter (fun x => x.pollId == P && x.userId == U)).head? = some v →
      ∃ s2, castVote P U c ⟨s, si, sr, []⟩ = (.ok (), ⟨s2, si, sr, []⟩) ∧
        s2.votes.length = s.votes.length ∧
        (s2.votes.filter (fun x => x.pollId == P && x.userId == U)).head? =
          some { v with choice := c }) ∧
    (s.votes.filter (fun x => x.pollId == P && x.userId == U) = [] →
      ∃ s2 s3, castVote P U "join" ⟨s, si, sr, []⟩ = (.ok (), ⟨s2, si, sr, []⟩) ∧
        castVote P U "join" ⟨s2, si, sr, []⟩ = (.ok (), ⟨s3, si, sr, []⟩) ∧
        s3.votes.filter (fun x => x.pollId == P && x.userId == U) =
          [{ id := s.nextId, pollId := P, userId := U, choice := "join" }]) := by
  constructor
  · intro v hv
    refine ⟨_, castVote_run_update c si sr hv, List.length_map _ _, ?_⟩
    rw [filter_map_comm, filterExt _ (voteUpd_keeps_key P U v.id c)]
    obtain ⟨t, ht⟩ : ∃ t, s.votes.filter (fun x => x.pollId == P && x.userId == U) = v :: t := by
      cases hfl : s.votes.filter (fun x => x.pollId == P && x.userId == U) with
      | nil => rw [hfl] at hv; cases hv
      | cons x t =>
        rw [hfl] at hv
        exact ⟨t, by rw [show x = v from by injection hv]⟩
    rw [ht, List.map_cons, List.head?_cons, if_pos (show (v.id == v.id) = true by simp)]
  · intro h0
    have h2 : ((({ s with
        votes := s.votes ++ [{ id := s.nextId, pollId := P, userId := U, choice := "join" }],
        nextId := s.nextId + 1 } : Store).votes).filter
          (fun x => x.pollId == P && x.userId == U)).head? =
        some { id := s.nextId, pollId := P, userId := U, choice := "join" } := by
      show ((s.votes ++ [({ id := s.nextId, pollId := P, userId := U, choice := "join" } : Vote)]).filter
        (fun x : Vote => x.pollId == P && x.userId == U)).head? = _
      rw [List.filter_append, h0, List.nil_append, List.filter_cons,
        if_pos (show (P == P && U == U) = true by simp)]
      rfl
    refine ⟨_, _, castVote_run_insert "join" si sr h0,
      castVote_run_update "join" si sr h2, ?_⟩
    show ((s.votes ++ [({ id := s.nextId, pollId := P, userId := U, choice := "join" } : Vote)]).map
        (fun x : Vote => if x.id == s.nextId then { x with choice := "join" } else x)).filter
        (fun x : Vote => x.pollId == P && x.userId == U) =
      [({ id := s.nextId, pollId := P, userId := U, choice := "join" } : Vote)]
    rw [filter_map_comm, filterExt _ (voteUpd_keeps_key P U s.nextId "join"),
      List.filter_append, h0, List.nil_append, List.filter_cons,
      if_pos (show (P == P && U == U) = true by simp)]
    simp

/-- Closed instance of the C2 theorem: double `join` on an empty store
leaves exactly one vote record with choice `join`. -/
theorem c2_castVote_upsert_idempotent_witness :
    ∃ s2 s3, castVote 7 "u" "join" { store := {} } = (.ok (), ⟨s2, [], [], []⟩) ∧
      castVote 7 "u" "join" ⟨s2, [], [], []⟩ = (.ok (), ⟨s3, [], [], []⟩) ∧
      s3.votes.filter (fun x => x.pollId == 7 && x.userId == "u") =
        [{ id := 0, pollId := 7, userId := "u", choice := "join" }] :=
  (c2_castVote_upsert_idempotent {} [] [] 7 "u" "join").2 rfl

/-! ## Claim C6: `/lock` deactivates the poll and notifies joiners -/

/-- C6: when the group has an active poll (the head of its active
filter), `/lock` succeeds, sets that poll's active flag to false, and
appends exactly one Notification per vote on that poll with choice
`join` — so for every user the number of new notifications equals their
number of `join` votes on the poll: one for a join voter, zero for a
maybe or no voter. -/
theorem c6_lock_notifies_joiners (s : Store) (si : List (String × Item))
    (sr : List (String × List Item)) (g : String) (gname : Option String) (p : Poll)
    (hp : (s.polls.filter (fun q => q.groupId == g && q.active)).head? = some p) :
    ∃ s2, lockDecision g gname ⟨s, si, sr, []⟩ = (.ok (), ⟨s2, si, sr, []⟩) ∧
      (∀ q ∈ s2.polls, q.id = p.id → q.active = false) ∧
      (∀ u, (s2.notifications.filter (fun n => n.userId == u)).length =
        (s.notifications.filter (fun n => n.userId == u)).length +
          (s.votes.filter (fun v => v.pollId == p.id &&
            (v.choice == "join" && v.userId == u))).length) := by
  obtain ⟨s2, hrun, hpolls, hnot⟩ := lockDecision_run g gname si sr hp
  refine ⟨s2, hrun, ?_, ?_⟩
  · intro q hq hid
    rw [hpolls] at hq
    obtain ⟨x, hx, hfx⟩ := List.mem_map.mp hq
    by_cases hxid : (x.id == p.id) = true
    · rw [if_pos hxid] at hfx
      rw [← hfx]
    · rw [if_neg hxid] at hfx
      exact absurd (beq_iff_eq.mpr (by rw [hfx]; exact hid)) hxid
  · intro u
    have key : ∀ (l : List Notification),
        (l.filter (fun n => n.userId == u)).length =
          ((l.map Notification.userId).filter (fun x => x == u)).length :=
      fun l => (length_filter_map_eq l Notification.userId (fun x => x == u)).symm
    rw [key s2.notifications, hnot, List.filter_append, List.length_append,
      ← key s.notifications]
    congr 1
    rw [length_filter_map_eq, filter_filter', filter_filter']

/-! ## Claim C1: at most one active poll per group is preserved -/

theorem actStep_id (pid : Nat) (q : Poll) :
    ((if q.id == pid then { q with active := true } else q) : Poll).id = q.id := by
  by_cases h : (q.id == pid) = true
  · rw [if_pos h]
  · rw [if_neg h]

theorem actStep_groupId (pid : Nat) (q : Poll) :
    ((if q.id == pid then { q with active := true } else q) : Poll).groupId = q.groupId := by
  by_cases h : (q.id == pid) = true
  · rw [if_pos h]
  · rw [if_neg h]

theorem deactIf_mem_active (ids : List Nat) (x : Poll) (h : x.id ∈ ids) :
    (deactIf ids x).active = false := by
  unfold deactIf
  rw [if_pos h]

theorem find?_pred {α : Type} {p : α → Bool} {l : List α} {a : α}
    (h : l.find? p = some a) : p a = true := by
  induction l with
  | nil => cases h
  | cons x t ih =>
    rw [List.find?_cons] at h
    cases hx : p x with
    | true =>
      simp only [hx] at h
      injection h with h2
      rw [← h2]
      exact hx
    | false =>
      simp only [hx] at h
      exact ih h

theorem find?_mem {α : Type} {p : α → Bool} {l : List α} {a : α}
    (h : l.find? p = some a) : a ∈ l := by
  induction l with
  | nil => cases h
  | cons x t ih =>
    rw [List.find?_cons] at h
    cases hx : p x with
    | true =>
      simp only [hx] at h
      injection h with h2
      rw [h2]
      exact List.mem_cons_self a t
    | false =>
      simp only [hx] at h
      exact List.mem_cons_of_mem _ (ih h)

/-- Like `length_filter_map_le`, with a different bounding predicate on
the untransformed list. -/
theorem length_filter_map_le_of {α : Type} (l : List α) (f : α → α) (p q : α → Bool)
    (h : ∀ a ∈ l, p (f a) = true → q a = true) :
    ((l.map f).filter p).length ≤ (l.filter q).length := by
  induction l with
  | nil => simp
  | cons a t ih =>
    have ht := ih (fun x hx => h x (List.mem_cons_of_mem _ hx))
    rw [List.map_cons, List.filter_cons, List.filter_cons]
    by_cases hfa : p (f a) = true
    · rw [if_pos hfa, if_pos (h a (List.mem_cons_self a t) hfa)]
      simpa using ht
    · rw [if_neg hfa]
      by_cases hqa : q a = true
      · rw [if_pos hqa]
        exact ht.trans (Nat.le_succ _)
      · rw [if_neg hqa]
        exact ht

/-- C1: in a store with distinct poll ids, `createPoll` leaves its
group with exactly one active poll (the new one) and never increases
any other group's active count; `activatePoll` — whether it fails
early (not found / permission) or completes — preserves "at most one
active poll" for every group. -/
theorem c1_single_active_poll_preserved (s : Store) (si : List (String × Item))
    (sr : List (String × List Item)) (pd : PollData) (pollId : Nat) (userId : String)
    (hnd : (s.polls.map Poll.id).Nodup) :
    (countActive (createPoll pd ⟨s, si, sr, []⟩).2.store pd.groupId = 1 ∧
      ∀ G, countActive s G ≤ 1 → countActive (createPoll pd ⟨s, si, sr, []⟩).2.store G ≤ 1) ∧
    (∀ G, countActive s G ≤ 1 →
      countActive (activatePoll pollId userId ⟨s, si, sr, []⟩).2.store G ≤ 1) := by
  have hcov1 : ∀ q ∈ s.polls, q.groupId = pd.groupId → q.active = true →
      q.id ∈ (((s.polls.filter (fun p => p.groupId == pd.groupId)).filter
        (fun p => p.active)).map Poll.id) := by
    intro q hq hg ha
    exact List.mem_map.mpr
      ⟨q, List.mem_filter.mpr ⟨List.mem_filter.mpr ⟨hq, beq_iff_eq.mpr hg⟩, ha⟩, rfl⟩
  constructor
  · rw [createPoll_run pd s si sr]
    constructor
    · show ((s.polls.map
          (deactIf (((s.polls.filter (fun p => p.groupId == pd.groupId)).filter
            (fun p => p.active)).map Poll.id))
          ++ [newPollOf pd s.nextId]).filter
            (fun p => p.groupId == pd.groupId && p.active)).length = 1
      rw [List.filter_append, filter_map_deactIf_nil hcov1, List.nil_append,
        List.filter_cons,
        if_pos (show ((newPollOf pd s.nextId).groupId == pd.groupId &&
          (newPollOf pd s.nextId).active) = true by simp [newPollOf])]
      rfl
    · intro G hpre
      show ((s.polls.map
          (deactIf (((s.polls.filter (fun p => p.groupId == pd.groupId)).filter
            (fun p => p.active)).map Poll.id))
          ++ [newPollOf pd s.nextId]).filter
            (fun p => p.groupId == G && p.active)).length ≤ 1
      rw [List.filter_append, List.length_append]
      by_cases hG : G = pd.groupId
      · subst hG
        rw [filter_map_deactIf_nil hcov1]
        rw [List.filter_cons,
          if_pos (show ((newPollOf pd s.nextId).groupId == pd.groupId &&
            (newPollOf pd s.nextId).active) = true by simp [newPollOf])]
        simp
      · have hlast : (([newPollOf pd s.nextId] : List Poll).filter
            (fun p => p.groupId == G && p.active)).length = 0 := by
          have hb : ((newPollOf pd s.nextId).groupId == G &&
              (newPollOf pd s.nextId).active) = false := by
            have hne : (pd.groupId == G) = false :=
              beq_eq_false_iff_ne.mpr (fun h => hG h.symm)
            simp [newPollOf, hne]
          rw [List.filter_cons, if_neg (by rw [hb]; exact Bool.false_ne_true)]
          rfl
        rw [hlast, Nat.add_zero]
        refine le_trans (length_filter_map_le s.polls _ _ ?_) hpre
        intro a ha hpa
        rw [Bool.and_eq_true] at hpa ⊢
        refine ⟨?_, deactIf_active_imp _ _ hpa.2⟩
        have := hpa.1
        rw [deactIf_groupId] at this
        exact this
  · intro G hpre
    rcases hfind : s.polls.find? (fun q => q.id == pollId) with _ | poll
    · rw [activatePoll_run_notFound userId si sr hfind]
      exact hpre
    · by_cases hperm : poll.creatorId = userId
      · rw [activatePoll_run_ok si sr hfind hperm]
        have hpoll_mem : poll ∈ s.polls := find?_mem hfind
        have hpoll_id := find?_pred hfind
        have hunique : ∀ x ∈ s.polls, x.id = pollId → x = poll := by
          intro x hx hxid
          exact List.inj_on_of_nodup_map hnd hx hpoll_mem
            (hxid.trans (beq_iff_eq.mp hpoll_id).symm)
        show (((s.polls.map
            (deactIf (((s.polls.filter (fun p => p.groupId == poll.groupId && p.active)).filter
              (fun p => p.id != pollId)).map Poll.id))).map
            (fun q => if q.id == pollId then { q with active := true } else q)).filter
              (fun p => p.groupId == G && p.active)).length ≤ 1
        rw [List.map_map]
        by_cases hG : G = poll.groupId
        · subst hG
          refine le_trans
            (length_filter_map_le_of s.polls _ _ (fun x => x.id == pollId) ?_)
            (length_filter_id_le_one s.polls pollId hnd)
          intro x hx hpx
          rw [Function.comp_apply] at hpx
          by_cases hxid : (x.id == pollId) = true
          · exact hxid
          · exfalso
            have hfix : ((deactIf (((s.polls.filter
                (fun p => p.groupId == poll.groupId && p.active)).filter
                (fun p => p.id != pollId)).map Poll.id) x).id == pollId) = false := by
              rw [deactIf_id]
              cases h : (x.id == pollId) with
              | true => exact absurd h hxid
              | false => rfl
            rw [if_neg (by rw [hfix]; exact Bool.false_ne_true)] at hpx
            rw [Bool.and_eq_true] at hpx
            have hgx : x.groupId = poll.groupId := by
              have := hpx.1
              rw [deactIf_groupId, beq_iff_eq] at this
              exact this
            have hax : x.active = true := deactIf_active_imp _ _ hpx.2
            have hxin : x.id ∈ (((s.polls.filter
                (fun p => p.groupId == poll.groupId && p.active)).filter
                (fun p => p.id != pollId)).map Poll.id) := by
              refine List.mem_map.mpr ⟨x, List.mem_filter.mpr ⟨List.mem_filter.mpr
                ⟨hx, by rw [Bool.and_eq_true, beq_iff_eq]; exact ⟨hgx, hax⟩⟩, ?_⟩, rfl⟩
              show (x.id != pollId) = true
              cases h : (x.id == pollId) with
              | true => exact absurd h hxid
              | false => rw [bne]; rw [h]; rfl
            have := deactIf_mem_active _ _ hxin
            rw [this] at hpx
            exact Bool.false_ne_true hpx.2
        · refine le_trans (length_filter_map_le_of s.polls _ _
            (fun p => p.groupId == G && p.active) ?_) hpre
          intro x hx hpx
          rw [Function.comp_apply] at hpx
          rw [Bool.and_eq_true] at hpx ⊢
          have hgx : x.groupId = G := by
            have := hpx.1
            rw [actStep_groupId, deactIf_groupId, beq_iff_eq] at this
            exact this
          by_cases hxid : x.id = pollId
          · exact absurd ((hunique x hx hxid) ▸ hgx).symm hG
          · have hfix : ((deactIf (((s.polls.filter
                (fun p => p.groupId == poll.groupId && p.active)).filter
                (fun p => p.id != pollId)).map Poll.id) x).id == pollId) = false := by
              rw [deactIf_id]
              exact beq_eq_false_iff_ne.mpr hxid
            rw [if_neg (by rw [hfix]; exact Bool.false_ne_true)] at hpx
            exact ⟨beq_iff_eq.mpr hgx, deactIf_active_imp _ _ hpx.2⟩
      · rw [activatePoll_run_perm si sr hfind hperm]
        exact hpre

/-- Closed instance of the C1 theorem at a one-poll store. -/
theorem c1_single_active_poll_preserved_witness :
    countActive (createPoll c1Draft ⟨c1Store, [], [], []⟩).2.store "g" = 1 ∧
    countActive (activatePoll 0 "u" ⟨c1Store, [], [], []⟩).2.store "g" ≤ 1 :=
  ⟨(c1_single_active_poll_preserved c1Store [] [] c1Draft 0 "u" (by decide)).1.1,
   (c1_single_active_poll_preserved c1Store [] [] c1Draft 0 "u" (by decide)).2 "g" (by decide)⟩

/-! ## Claim C8: error containment of `handlePlanbotCommand` -/

/-- C8 counterexample: a persistence failure while writing the `/help`
system message escapes `handlePlanbotCommand` as a rejection; the
claim says the function never rejects toward its caller. -/
theorem c8_counterexample :
    (handlePlanbotCommand (fun _ _ => []) (fun _ => .ok []) "/help"
        { groupId := "g", currentUser := { id := "u", name := "N" } }
        { store := {}, fuel := [false] }).1 = Except.error Err.persistence := by
  decide

theorem seq_pure_ok {α β : Type} {m : DB α} (hm : allOk m) (c : β) (w : World)
    (hw : w.fuel = []) : ∃ w2, (m >>= fun _ => pure c) w = (.ok c, w2) := by
  obtain ⟨a, w2, hr, h2⟩ := hm w hw
  exact ⟨w2, by rw [bind_ok hr]; rfl⟩

/-- C8 amended: `handlePlanbotCommand` returns `handled = false` for
input not starting with `/` or `!` and `handled = true` otherwise, and
— as long as every persistence write succeeds — never rejects toward
its caller (external lookup failures and soft conditions are converted
to system messages); however, a persistence failure inside a handler
escapes as a rejection (see the counterexample). -/
theorem c8_handlePlanbot_total_when_storage_ok
    (sp : String → String → List PlaceResult)
    (sm : List String → Except Err (List MovieResult))
    (input : String) (ctx : PlanbotContext) (w : World) (hw : w.fuel = []) :
    ∃ r w2, handlePlanbotCommand sp sm input ctx w = (.ok r, w2) ∧
      r.handled = (strStartsWithChar (strTrim input) '/' ||
        strStartsWithChar (strTrim input) '!') := by
  unfold handlePlanbotCommand
  cases hb : (strStartsWithChar (strTrim input) '/' ||
      strStartsWithChar (strTrim input) '!') with
  | false =>
    refine ⟨{ handled := false }, w, ?_, rfl⟩
    dsimp only
    rw [if_pos (show ((!false) = true) by decide)]
    rfl
  | true =>
    dsimp only
    rw [if_neg (show ¬((!true) = true) by decide)]
    by_cases h1 : (parseArgs (strTrim input)).1 = "help"
    · rw [if_pos h1]
      obtain ⟨w2, hr⟩ := seq_pure_ok (allOk_help ctx.groupId)
        ({ handled := true } : PlanbotResult) w hw
      exact ⟨{ handled := true }, w2, hr, rfl⟩
    · rw [if_neg h1]
      by_cases h2 : (parseArgs (strTrim input)).1 = "planoutings"
      · rw [if_pos h2]
        obtain ⟨w2, hr⟩ := seq_pure_ok
          (allOk_suggestOutings sp ctx.groupId (parseArgs (strTrim input)).2)
          ({ handled := true } : PlanbotResult) w hw
        exact ⟨{ handled := true }, w2, hr, rfl⟩
      · rw [if_neg h2]
        by_cases h3 : (parseArgs (strTrim input)).1 = "planmovies"
        · rw [if_pos h3]
          obtain ⟨w2, hr⟩ := seq_pure_ok
            (allOk_suggestMovies sm ctx.groupId ctx.currentUser.id ctx.currentUser.name)
            ({ handled := true } : PlanbotResult) w hw
          exact ⟨{ handled := true }, w2, hr, rfl⟩
        · rw [if_neg h3]
          by_cases h4 : (parseArgs (strTrim input)).1 = "select"
          · rw [if_pos h4]
            obtain ⟨w2, hr⟩ := seq_pure_ok
              (allOk_selectItem ctx.groupId (parseArgs (strTrim input)).2)
              ({ handled := true } : PlanbotResult) w hw
            exact ⟨{ handled := true }, w2, hr, rfl⟩
          · rw [if_neg h4]
            by_cases h5 : (parseArgs (strTrim input)).1 = "when"
            · rw [if_pos h5]
              obtain ⟨w2, hr⟩ := seq_pure_ok
                (allOk_attachWhen ctx.groupId (parseArgs (strTrim input)).2 ctx.currentUser)
                ({ handled := true } : PlanbotResult) w hw
              exact ⟨{ handled := true }, w2, hr, rfl⟩
            · rw [if_neg h5]
              by_cases h6 : (parseArgs (strTrim input)).1 = "rsvp"
              · rw [if_pos h6]
                obtain ⟨w2, hr⟩ := seq_pure_ok (allOk_rsvpSummary ctx.groupId)
                  ({ handled := true } : PlanbotResult) w hw
                exact ⟨{ handled := true }, w2, hr, rfl⟩
              · rw [if_neg h6]
                by_cases h7 : (parseArgs (strTrim input)).1 = "lock"
                · rw [if_pos h7]
                  obtain ⟨w2, hr⟩ := seq_pure_ok
                    (allOk_lockDecision ctx.groupId (ctx.group.map (fun g => g.name)))
                    ({ handled := true } : PlanbotResult) w hw
                  exact ⟨{ handled := true }, w2, hr, rfl⟩
                · rw [if_neg h7]
                  obtain ⟨w2, hr⟩ := seq_pure_ok
                    (allOk_sendSystemMessage ctx.groupId
                      "Unknown command. Use /help for available commands.")
                    ({ handled := true } : PlanbotResult) w hw
                  exact ⟨{ handled := true }, w2, hr, rfl⟩

/-- Closed instance of the C8 theorem at `/help` on an all-success
world. -/
theorem c8_handlePlanbot_total_when_storage_ok_witness :
    ∃ r w2, handlePlanbotCommand (fun _ _ => []) (fun _ => .ok []) "/help"
        { groupId := "g", currentUser := { id := "u", name := "N" } } { store := {} } =
      (.ok r, w2) ∧
      r.handled = (strStartsWithChar (strTrim "/help") '/' ||
        strStartsWithChar (strTrim "/help") '!') :=
  c8_handlePlanbot_total_when_storage_ok (fun _ _ => []) (fun _ => .ok []) "/help"
    { groupId := "g", currentUser := { id := "u", name := "N" } } { store := {} } rfl

/-- Closed instance of the C6 theorem at the three-voter scenario. -/
theorem c6_lock_notifies_joiners_witness :
    ∃ s2, lockDecision "g" (some "G") ⟨c6Store, [], [], []⟩ = (.ok (), ⟨s2, [], [], []⟩) ∧
      (∀ q ∈ s2.polls, q.id = c6Poll.id → q.active = false) ∧
      (∀ u, (s2.notifications.filter (fun n => n.userId == u)).length =
        (c6Store.notifications.filter (fun n => n.userId == u)).length +
          (c6Store.votes.filter (fun v => v.pollId == c6Poll.id &&
            (v.choice == "join" && v.userId == u))).length) :=
  c6_lock_notifies_joiners c6Store [] [] "g" (some "G") c6Poll (by decide)

end FriendFlow
